import Mathlib

/-!
Verification of the juju remote-state watcher (`worker/uniter/remotestate`,
shipped in `src/cloud/fallback_public_cloud.go` of this snapshot) and of the
mgo transaction-queue-length patch (`src/patches/mgo_1_txn_queue_length_pr463.diff`).

The Go code is shallowly embedded: Go maps become association lists over
decidable-equality keys (a write into a `map[K]V` becomes `assocInsert`,
`delete` becomes `assocErase`), fallible calls return `Except GoErr`, and the
aggregator loop becomes a step function over an explicit `LoopState` driven by
a list of events, each event carrying the results the backing-store oracles
would deliver for it.  Reference (aliasing) behaviour of Go maps matters for
one property only, `Snapshot()`'s copy depth; that single aspect is modelled
separately with an explicit heap of map cells.
-/

namespace RemoteState

/-! ## Association-list maps (embedding of Go maps) -/

variable {α : Type} {β : Type} [DecidableEq α]

/-- Go map read `m[k]`. -/
def assocLookup : List (α × β) → α → Option β
  | [], _ => none
  | (k', v) :: rest, k => if k' = k then some v else assocLookup rest k

/-- Go `delete(m, k)`. -/
def assocErase : List (α × β) → α → List (α × β)
  | [], _ => []
  | (k', v) :: rest, k => if k' = k then assocErase rest k else (k', v) :: assocErase rest k

/-- Go map write `m[k] = v`. -/
def assocInsert (l : List (α × β)) (k : α) (v : β) : List (α × β) :=
  (k, v) :: assocErase l k

/-- Go `_, ok := m[k]`. -/
def assocMem (l : List (α × β)) (k : α) : Bool :=
  (assocLookup l k).isSome

/-! ## Data model (`Snapshot`, `RelationSnapshot`, `StorageSnapshot`)

Mirrors the `remotestate` types.  `params.Life` values are Alive/Dying/Dead,
`params.ResolvedMode` is None/Retry-Hooks/No-Hooks.  Map-typed fields become
association lists; `int64` settings versions become `Int`. -/

/-- Go errors, classified the way the watcher classifies them:
`params.IsCodeNotFoundOrCodeUnauthorized`, `worker.ErrTerminateAgent`,
`tomb.ErrDying`, and everything else carried as an opaque message. -/
inductive GoErr
  | codeNotFound
  | codeUnauthorized
  | terminateAgent
  | errDying
  | otherErr (msg : String)
  deriving DecidableEq, Repr

/-- `params.IsCodeNotFoundOrCodeUnauthorized`. -/
def isNotFoundOrUnauthorized : GoErr → Bool
  | .codeNotFound => true
  | .codeUnauthorized => true
  | _ => false

inductive Life
  | alive
  | dying
  | dead
  deriving DecidableEq, Repr, Inhabited

inductive ResolvedMode
  | modeNone
  | retryHooks
  | noHooks
  deriving DecidableEq, Repr, Inhabited

/-- `RelationSnapshot`: `Life` plus `Members` (`map[string]int64` of
member unit name to last-seen settings version). -/
structure RelationSnapshot where
  life : Life
  members : List (String × Int)
  deriving DecidableEq, Repr, Inhabited

/-- `StorageSnapshot`: tag, life and attachment details. -/
structure StorageSnapshot where
  tag : String
  life : Life
  kind : Nat
  location : String
  attached : Bool
  deriving DecidableEq, Repr, Inhabited

/-- 64-bit two's-complement wraparound: the value of a Go `int` (64-bit on
the supported platforms) holding the mathematical integer `x`. -/
def int64Wrap (x : Int) : Int :=
  (x + 2 ^ 63) % 2 ^ 64 - 2 ^ 63

/-- A Go `x++` on a 64-bit `int`: adds one and wraps at `2^63 - 1`. -/
def int64Inc (x : Int) : Int :=
  int64Wrap (x + 1)

def minInt64 : Int := -(2 ^ 63)

def maxInt64 : Int := 2 ^ 63 - 1

/-- The consolidated `Snapshot` held in `w.current`.  `configVersion` and
`leaderSettingsVersion` hold Go 64-bit `int` values: every increment goes
through `int64Inc`, so the fields always carry values in
`[minInt64, maxInt64]`. -/
structure Snapshot where
  life : Life
  resolvedMode : ResolvedMode
  charmURL : Option String
  forceCharmUpgrade : Bool
  configVersion : Int
  leaderSettingsVersion : Int
  leader : Bool
  relations : List (Int × RelationSnapshot)
  storage : List (String × StorageSnapshot)
  deriving DecidableEq, Repr, Inhabited

/-- The zero `Snapshot` built by `NewWatcher` (`current: Snapshot{...}` with
empty `Relations` and `Storage` maps and zero values elsewhere). -/
def initialSnapshot : Snapshot :=
  { life := .alive
    resolvedMode := .modeNone
    charmURL := none
    forceCharmUpgrade := false
    configVersion := 0
    leaderSettingsVersion := 0
    leader := false
    relations := []
    storage := [] }

/-- The watcher's mutable state outside the tomb: the `current` snapshot, the
relation sub-watcher registry `w.relations` (relation key to the sub-watcher's
`relationId`), and the storage attachment watcher registry
`w.storageAttachementWatchers` (which tags have a running sub-watcher).
`stoppedRelationWatchers` / `stoppedStorageWatchers` log the `Stop()` calls the
handlers issue, so theorems can assert a sub-watcher was actually stopped. -/
structure WatcherState where
  current : Snapshot
  relations : List (String × Int)
  storageWatchers : List (String × Unit)
  stoppedRelationWatchers : List String
  stoppedStorageWatchers : List String
  deriving DecidableEq, Repr, Inhabited

def initialWatcherState : WatcherState :=
  { current := initialSnapshot
    relations := []
    storageWatchers := []
    stoppedRelationWatchers := []
    stoppedStorageWatchers := [] }

/-! ## Per-source handlers

Each Go handler queries the backing store and mutates `w.current` under the
mutex.  The store queries are embedded as oracle values carried by the event:
the handler receives exactly the data the corresponding RPCs would have
returned (or their error). -/

/-- `unitChanged`: refresh the unit, then copy `Life` and `ResolvedMode` into
the snapshot.  `refreshed` is the outcome of `w.unit.Refresh()` combined with
`w.unit.Resolved()`: on error the handler returns it untouched. -/
def unitChanged (w : WatcherState) (refreshed : Except GoErr (Life × ResolvedMode)) :
    Except GoErr WatcherState :=
  match refreshed with
  | .error e => .error e
  | .ok (l, rm) =>
      .ok { w with current := { w.current with life := l, resolvedMode := rm } }

/-- `serviceChanged`: refresh the service, then copy `CharmURL` and
`ForceCharmUpgrade`. -/
def serviceChanged (w : WatcherState)
    (refreshed : Except GoErr (Option String × Bool)) : Except GoErr WatcherState :=
  match refreshed with
  | .error e => .error e
  | .ok (url, force) =>
      .ok { w with current := { w.current with charmURL := url, forceCharmUpgrade := force } }

/-- `configChanged`: `w.current.ConfigVersion++` — a Go 64-bit `int`
increment, which wraps at `maxInt64`. -/
def configChanged (w : WatcherState) : Except GoErr WatcherState :=
  .ok { w with current := { w.current with configVersion := int64Inc w.current.configVersion } }

/-- `addressesChanged`: also `w.current.ConfigVersion++` (the two sources
deliberately share the counter), with the same wrapping semantics. -/
def addressesChanged (w : WatcherState) : Except GoErr WatcherState :=
  .ok { w with current := { w.current with configVersion := int64Inc w.current.configVersion } }

/-- `leaderSettingsChanged`: `w.current.LeaderSettingsVersion++`, again a
wrapping 64-bit increment. -/
def leaderSettingsChanged (w : WatcherState) : Except GoErr WatcherState :=
  .ok { w with current := { w.current with leaderSettingsVersion := int64Inc w.current.leaderSettingsVersion } }

/-- `leadershipChanged`: `w.current.Leader = isLeader`; never fails. -/
def leadershipChanged (w : WatcherState) (isLeader : Bool) : Except GoErr WatcherState :=
  .ok { w with current := { w.current with leader := isLeader } }

/-- `ClearResolvedMode`: under the mutex, `w.current.ResolvedMode = ResolvedNone`.
Its body contains no send on `w.out`, so the paired signal flag is `false`. -/
def clearResolvedMode (w : WatcherState) : WatcherState × Bool :=
  ({ w with current := { w.current with resolvedMode := .modeNone } }, false)

/-- `Snapshot()`: the value a concurrent caller reads under the mutex.  In
this value-semantics model the copied `Relations`/`Storage` maps are equal to
the originals; the copy's *depth* (which containers are shared) is treated in
the heap model below. -/
def snapshotRead (w : WatcherState) : Snapshot :=
  w.current

/-- Frame predicate: every `Snapshot` field other than `relations` agrees. -/
def snapshotFrameEq (a b : Snapshot) : Prop :=
  a.life = b.life ∧ a.resolvedMode = b.resolvedMode ∧ a.charmURL = b.charmURL
    ∧ a.forceCharmUpgrade = b.forceCharmUpgrade ∧ a.configVersion = b.configVersion
    ∧ a.leaderSettingsVersion = b.leaderSettingsVersion ∧ a.leader = b.leader
    ∧ a.storage = b.storage

/-- Frame predicate: the storage-side watcher state (attachment sub-watcher
registry and its stop log) agrees. -/
def storageSideEq (a b : WatcherState) : Prop :=
  a.storageWatchers = b.storageWatchers
    ∧ a.stoppedStorageWatchers = b.stoppedStorageWatchers

/-- A relation-units delta forwarded by a relation sub-watcher:
`{relationId, changed (unit name to settings version), departed}`. -/
structure RelationUnitsChange where
  relationId : Int
  changed : List (String × Int)
  departed : List String
  deriving DecidableEq, Repr

/-- `relationUnitsChanged`: look up the relation id in `w.current.Relations`;
if absent, return nil leaving everything untouched.  Otherwise merge the
`Changed` versions and delete the `Departed` units from the relation's
`Members`.  (In Go the merge mutates the `Members` map shared with the stored
`RelationSnapshot`; the net effect on the stored snapshot is written back
explicitly here.) -/
def relationUnitsChanged (w : WatcherState) (c : RelationUnitsChange) :
    Except GoErr WatcherState :=
  match assocLookup w.current.relations c.relationId with
  | none => .ok w
  | some snap =>
      let merged := c.changed.foldl (fun m uv => assocInsert m uv.1 uv.2) snap.members
      let afterDeparted := c.departed.foldl (fun m u => assocErase m u) merged
      let rels := assocInsert w.current.relations c.relationId { snap with members := afterDeparted }
      .ok { w with current := { w.current with relations := rels } }

/-- A storage-attachment sub-watcher event `{StorageSnapshot, remove}`. -/
structure StorageSnapshotEvent where
  snapshot : StorageSnapshot
  remove : Bool
  deriving DecidableEq, Repr

/-- `storageAttachmentChanged`: delete or overwrite `w.current.Storage[tag]`. -/
def storageAttachmentChanged (w : WatcherState) (e : StorageSnapshotEvent) :
    Except GoErr WatcherState :=
  if e.remove then
    let st := assocErase w.current.storage e.snapshot.tag
    .ok { w with current := { w.current with storage := st } }
  else
    let st := assocInsert w.current.storage e.snapshot.tag e.snapshot
    .ok { w with current := { w.current with storage := st } }

/-! ## `relationsChanged` -/

/-- Outcome of `w.st.Relation(relationTag)` for one key. -/
inductive RelationLookup
  | notFoundOrUnauthorized
  | lookupErr (e : GoErr)
  | found (id : Int) (life : Life)

/-- Backing-store oracle for one `relationsChanged` invocation: the relation
lookup per key, the result of `WatchRelationUnits` plus the sub-watcher's
initial event per key (the `Changed` map of unit name to settings version;
`.error` covers a failed watch or a closed channel), and the outcome of
`ruw.Stop()` per key (`none` = success). -/
structure RelEnv where
  lookup : String → RelationLookup
  watchInit : String → Except GoErr (List (String × Int))
  stopRes : String → Option GoErr

/-- The body of `relationsChanged`'s per-key loop.  Mirrors the Go exactly:

* lookup not-found-or-unauthorized: if a sub-watcher is registered for the
  key, `Stop()` it (propagating a stop error), then delete both the registry
  entry and `w.current.Relations[ruw.relationId]`; otherwise do nothing;
* other lookup error: return it;
* found and already registered: re-read `w.current.Relations[rel.Id()]`
  (Go map read, zero value if absent), overwrite only its `Life`, store back;
* found and new: `WatchRelationUnits`, block for the initial event, seed
  `Members` from its `Changed` versions, insert snapshot and registry entries. -/
def relationsChangedKey (env : RelEnv) (w : WatcherState) (key : String) :
    Except GoErr WatcherState :=
  match env.lookup key with
  | .notFoundOrUnauthorized =>
      match assocLookup w.relations key with
      | some rid =>
          match env.stopRes key with
          | some e => .error e
          | none =>
              let rels := assocErase w.relations key
              let cur := assocErase w.current.relations rid
              let stopped := w.stoppedRelationWatchers ++ [key]
              .ok { w with relations := rels
                           stoppedRelationWatchers := stopped
                           current := { w.current with relations := cur } }
      | none => .ok w
  | .lookupErr e => .error e
  | .found rid life =>
      if assocMem w.relations key then
        let snap := (assocLookup w.current.relations rid).getD default
        let cur := assocInsert w.current.relations rid { snap with life := life }
        .ok { w with current := { w.current with relations := cur } }
      else
        match env.watchInit key with
        | .error e => .error e
        | .ok changed =>
            let members := changed.foldl (fun m uv => assocInsert m uv.1 uv.2) []
            let cur := assocInsert w.current.relations rid { life := life, members := members }
            let rels := assocInsert w.relations key rid
            .ok { w with relations := rels
                         current := { w.current with relations := cur } }

/-- `relationsChanged`: fold the per-key body over the payload's keys,
stopping at the first error. -/
def relationsChanged (env : RelEnv) (w : WatcherState) (keys : List String) :
    Except GoErr WatcherState :=
  match keys with
  | [] => .ok w
  | key :: rest =>
      match relationsChangedKey env w key with
      | .error e => .error e
      | .ok w' => relationsChanged env w' rest

/-! ## `storageChanged` -/

/-- One entry of the `w.st.StorageAttachmentLife(ids)` result for a key:
`result.Error == nil` with a life, a not-found error, or another error. -/
inductive StorageLifeResult
  | okLife (life : Life)
  | notFound
  | lifeErr (e : GoErr)

/-- Backing-store oracle for one `storageChanged` invocation: the batched
life query (whole-call error or a per-key result), the outcome of
`newStorageAttachmentWatcher` per key, and of `watcher.Stop()` per key. -/
structure StorageEnv where
  batchErr : Option GoErr
  lifeResult : String → StorageLifeResult
  startRes : String → Option GoErr
  stopRes : String → Option GoErr

/-- `startStorageAttachmentWatcher`: no-op when a watcher for the tag is
already registered, otherwise start one and register it. -/
def startStorageAttachmentWatcher (env : StorageEnv) (w : WatcherState) (tag : String) :
    Except GoErr WatcherState :=
  if assocMem w.storageWatchers tag then .ok w
  else
    match env.startRes tag with
    | some e => .error e
    | none => .ok { w with storageWatchers := assocInsert w.storageWatchers tag () }

/-- `stopStorageAttachmentWatcher`: no-op when no watcher is registered,
otherwise deregister it and return `watcher.Stop()`'s outcome. -/
def stopStorageAttachmentWatcher (env : StorageEnv) (w : WatcherState) (tag : String) :
    Except GoErr WatcherState :=
  if assocMem w.storageWatchers tag then
    let w' := { w with storageWatchers := assocErase w.storageWatchers tag
                       stoppedStorageWatchers := w.stoppedStorageWatchers ++ [tag] }
    match env.stopRes tag with
    | some e => .error e
    | none => .ok w'
  else .ok w

/-- The body of `storageChanged`'s per-result loop:

* `result.Error == nil`: upsert `w.current.Storage[tag]` (keep the existing
  snapshot's details if present, else a fresh `StorageSnapshot{Tag, Life}`),
  overwrite its `Life` with the returned life, then
  `startStorageAttachmentWatcher` (annotated error on failure);
* not-found: delete `w.current.Storage[tag]`, then
  `stopStorageAttachmentWatcher` (annotated error on failure);
* other error: return it (annotated `result.Error`). -/
def storageChangedKey (env : StorageEnv) (w : WatcherState) (key : String) :
    Except GoErr WatcherState :=
  match env.lifeResult key with
  | .okLife life =>
      let snap := match assocLookup w.current.storage key with
        | some s => s
        | none => { tag := key, life := life, kind := 0, location := "", attached := false }
      let snap := { snap with life := life }
      let w' := { w with current := { w.current with storage := assocInsert w.current.storage key snap } }
      startStorageAttachmentWatcher env w' key
  | .notFound =>
      let w' := { w with current := { w.current with storage := assocErase w.current.storage key } }
      stopStorageAttachmentWatcher env w' key
  | .lifeErr e => .error e

/-- `storageChanged`: fail on a batch-query error, otherwise fold the
per-result body over the keys, stopping at the first error. -/
def storageChanged (env : StorageEnv) (w : WatcherState) (keys : List String) :
    Except GoErr WatcherState :=
  match env.batchErr with
  | some e => .error e
  | none => go w keys
where
  go (w : WatcherState) : List String → Except GoErr WatcherState
    | [] => .ok w
    | key :: rest =>
        match storageChangedKey env w key with
        | .error e => .error e
        | .ok w' => go w' rest

/-! ## `init` and `NewWatcher` -/

/-- The deferred error translation in `init`: not-found or unauthorized
becomes `worker.ErrTerminateAgent`, everything else is returned untouched. -/
def initTranslate (e : GoErr) : GoErr :=
  if isNotFoundOrUnauthorized e then .terminateAgent else e

/-- `init`: look up the unit, then its service; the deferred function
translates a not-found/unauthorized error from either lookup.
`unitLookup` / `serviceLookup` are `w.st.Unit(unitTag)` and
`w.unit.Service()`; the lookups' payloads are irrelevant here. -/
def initW (unitLookup serviceLookup : Except GoErr Unit) : Except GoErr Unit :=
  match unitLookup with
  | .error e => .error (initTranslate e)
  | .ok _ =>
      match serviceLookup with
      | .error e => .error (initTranslate e)
      | .ok _ => .ok ()

/-! ## The aggregator loop -/

/-- `requiredEvents` after the seven `requiredEvents++` for the unit,
service, config, relations, addresses, storage and leader-settings watchers,
plus one for the leadership channel. -/
def requiredEvents : Nat := 8

/-- The loop's local state: the watcher state, the per-source
`seenXxxChange` booleans, and `eventsObserved`. -/
structure LoopState where
  w : WatcherState
  seenUnitChange : Bool
  seenServiceChange : Bool
  seenConfigChange : Bool
  seenRelationsChange : Bool
  seenAddressesChange : Bool
  seenStorageChange : Bool
  seenLeaderSettingsChange : Bool
  seenLeadershipChange : Bool
  eventsObserved : Nat
  deriving Repr

/-- `observedEvent(flag *bool)`: set the flag and bump `eventsObserved`
only the first time. -/
def observedEvent (flag : Bool) (n : Nat) : Bool × Nat :=
  if flag then (flag, n) else (true, n + 1)

/-- How many of the eight per-source initial-event flags are set. -/
def countFlags (s : LoopState) : Nat :=
  s.seenUnitChange.toNat + s.seenServiceChange.toNat + s.seenConfigChange.toNat
    + s.seenRelationsChange.toNat + s.seenAddressesChange.toNat + s.seenStorageChange.toNat
    + s.seenLeaderSettingsChange.toNat + s.seenLeadershipChange.toNat

/-- All eight primary sources have delivered their initial event. -/
def allSeen (s : LoopState) : Prop :=
  s.seenUnitChange = true ∧ s.seenServiceChange = true ∧ s.seenConfigChange = true
    ∧ s.seenRelationsChange = true ∧ s.seenAddressesChange = true
    ∧ s.seenStorageChange = true ∧ s.seenLeaderSettingsChange = true
    ∧ s.seenLeadershipChange = true

instance (s : LoopState) : Decidable (allSeen s) := by
  unfold allSeen
  infer_instance

/-- `fire()`'s gate: a non-blocking send on `w.out` is attempted exactly when
`eventsObserved == requiredEvents`. -/
def fireGate (n : Nat) : Bool :=
  n == requiredEvents

/-- Which of the two leadership one-shots fires first at startup: `dying`
(a `Kill()` arrived while `ClaimLeader.Ready()` was still pending) or the
claim-leader result with its boolean outcome. -/
inductive ClaimLeaderWait
  | dyingFirst
  | readyFirst (isLeader : Bool)

/-- The select preceding the main loop: it waits on `claimLeader.Ready()`
*and* on `w.tomb.Dying()`.  In the dying case the loop returns
`tomb.ErrDying`; in the ready case it records the leadership outcome via
`leadershipChanged`, arms the opposite one-shot, and marks
`seenLeadershipChange` via `observedEvent`.  No `fire()` runs here. -/
def loopInit (w : WatcherState) (cl : ClaimLeaderWait) : Except GoErr LoopState :=
  match cl with
  | .dyingFirst => .error .errDying
  | .readyFirst isLeader =>
      match leadershipChanged w isLeader with
      | .error e => .error e
      | .ok w' =>
          .ok { w := w'
                seenUnitChange := false
                seenServiceChange := false
                seenConfigChange := false
                seenRelationsChange := false
                seenAddressesChange := false
                seenStorageChange := false
                seenLeaderSettingsChange := false
                seenLeadershipChange := true
                eventsObserved := 1 }

/-- One arrival multiplexed by the main `select`.  Each case carries the
oracle data its handler needs.  `storageAttachmentEv`'s `chanOpen` mirrors
the `if ok` guard around its handler; the two leadership one-shots and the
two shared sub-watcher channels do not run `observedEvent`. -/
inductive LoopEvent
  | unitEv (refreshed : Except GoErr (Life × ResolvedMode))
  | serviceEv (refreshed : Except GoErr (Option String × Bool))
  | configEv
  | addressesEv
  | leaderSettingsEv
  | relationsEv (env : RelEnv) (keys : List String)
  | storageEv (env : StorageEnv) (keys : List String)
  | minionEv
  | leaderEv
  | storageAttachmentEv (e : StorageSnapshotEvent) (chanOpen : Bool)
  | relationUnitsEv (c : RelationUnitsChange)

/-- One iteration of the main loop: run the case's handler (an error exits
the loop before `observedEvent`), run `observedEvent` for the primary
sources, then `fire()`.  The returned `Bool` is whether `fire()` attempted a
send on `w.out`. -/
def stepLoop (s : LoopState) (ev : LoopEvent) : Except GoErr (LoopState × Bool) :=
  match ev with
  | .unitEv r =>
      match unitChanged s.w r with
      | .error e => .error e
      | .ok w' =>
          let fn := observedEvent s.seenUnitChange s.eventsObserved
          let s' := { s with w := w', seenUnitChange := fn.1, eventsObserved := fn.2 }
          .ok (s', fireGate s'.eventsObserved)
  | .serviceEv r =>
      match serviceChanged s.w r with
      | .error e => .error e
      | .ok w' =>
          let fn := observedEvent s.seenServiceChange s.eventsObserved
          let s' := { s with w := w', seenServiceChange := fn.1, eventsObserved := fn.2 }
          .ok (s', fireGate s'.eventsObserved)
  | .configEv =>
      match configChanged s.w with
      | .error e => .error e
      | .ok w' =>
          let fn := observedEvent s.seenConfigChange s.eventsObserved
          let s' := { s with w := w', seenConfigChange := fn.1, eventsObserved := fn.2 }
          .ok (s', fireGate s'.eventsObserved)
  | .addressesEv =>
      match addressesChanged s.w with
      | .error e => .error e
      | .ok w' =>
          let fn := observedEvent s.seenAddressesChange s.eventsObserved
          let s' := { s with w := w', seenAddressesChange := fn.1, eventsObserved := fn.2 }
          .ok (s', fireGate s'.eventsObserved)
  | .leaderSettingsEv =>
      match leaderSettingsChanged s.w with
      | .error e => .error e
      | .ok w' =>
          let fn := observedEvent s.seenLeaderSettingsChange s.eventsObserved
          let s' := { s with w := w', seenLeaderSettingsChange := fn.1, eventsObserved := fn.2 }
          .ok (s', fireGate s'.eventsObserved)
  | .relationsEv env keys =>
      match relationsChanged env s.w keys with
      | .error e => .error e
      | .ok w' =>
          let fn := observedEvent s.seenRelationsChange s.eventsObserved
          let s' := { s with w := w', seenRelationsChange := fn.1, eventsObserved := fn.2 }
          .ok (s', fireGate s'.eventsObserved)
  | .storageEv env keys =>
      match storageChanged env s.w keys with
      | .error e => .error e
      | .ok w' =>
          let fn := observedEvent s.seenStorageChange s.eventsObserved
          let s' := { s with w := w', seenStorageChange := fn.1, eventsObserved := fn.2 }
          .ok (s', fireGate s'.eventsObserved)
  | .minionEv =>
      match leadershipChanged s.w false with
      | .error e => .error e
      | .ok w' =>
          let s' := { s with w := w' }
          .ok (s', fireGate s'.eventsObserved)
  | .leaderEv =>
      match leadershipChanged s.w true with
      | .error e => .error e
      | .ok w' =>
          let s' := { s with w := w' }
          .ok (s', fireGate s'.eventsObserved)
  | .storageAttachmentEv e chanOpen =>
      if chanOpen then
        match storageAttachmentChanged s.w e with
        | .error err => .error err
        | .ok w' =>
            let s' := { s with w := w' }
            .ok (s', fireGate s'.eventsObserved)
      else
        .ok (s, fireGate s.eventsObserved)
  | .relationUnitsEv c =>
      match relationUnitsChanged s.w c with
      | .error e => .error e
      | .ok w' =>
          let s' := { s with w := w' }
          .ok (s', fireGate s'.eventsObserved)

/-- Run the loop over a sequence of arrivals.  An error exits the loop: the
state freezes (still readable through `Snapshot()`) and no further signals
occur.  Returns the final state and the trace of `fire()` send attempts. -/
def runLoop (s : LoopState) : List LoopEvent → LoopState × List Bool
  | [] => (s, [])
  | ev :: evs =>
      match stepLoop s ev with
      | .error _ => (s, [])
      | .ok (s', b) =>
          let r := runLoop s' evs
          (r.1, b :: r.2)

/-- `NewWatcher` followed by the loop: if `init` fails the goroutine is never
started, so the construction error comes back and the output channel carries
no signals at all; otherwise the loop runs from `loopInit`. -/
def newWatcherRun (unitLookup serviceLookup : Except GoErr Unit)
    (cl : ClaimLeaderWait) (evs : List LoopEvent) :
    Except GoErr LoopState × List Bool :=
  match initW unitLookup serviceLookup with
  | .error e => (.error e, [])
  | .ok _ =>
      match loopInit initialWatcherState cl with
      | .error e => (.error e, [])
      | .ok s0 =>
          let (s', bs) := runLoop s0 evs
          (.ok s', bs)

/-! ## Heap model of `Snapshot()`'s copy depth

Go maps are references: assigning `snapshot.Relations[id] = relationSnapshot`
copies the `RelationSnapshot` struct but not the `map[string]int64` behind its
`Members` field.  To reason about what a caller can reach through the value
`Snapshot()` returns, map *containers* are modelled as numbered heap cells:
`relMapCells` holds `map[int]RelationSnapshot` containers whose entries store
their `Members` container's address, `memberCells` holds the
`map[string]int64` containers.  `Snapshot()`'s copy loop allocates a fresh
relations container and copies the entry structs into it verbatim. -/

/-- A `RelationSnapshot` struct value as stored in a relations map: the
`Members` field is a map header, i.e. the address of a members cell. -/
structure RelationSnapshotRef where
  life : Life
  membersRef : Nat
  deriving DecidableEq, Repr

structure SnapHeap where
  relMapCells : List (Nat × List (Int × RelationSnapshotRef))
  storageMapCells : List (Nat × List (String × StorageSnapshot))
  memberCells : List (Nat × List (String × Int))
  nextAddr : Nat
  deriving DecidableEq, Repr

/-- The watcher's side of the heap model: `w.current.Relations` is the map
container at `currentRelationsRef`, `w.current.Storage` the one at
`currentStorageRef`.  `StorageSnapshot` values carry no map header, so
storage entries are plain struct values. -/
structure HeapWatcher where
  heap : SnapHeap
  currentRelationsRef : Nat
  currentStorageRef : Nat
  deriving DecidableEq, Repr

/-- Contents of the relations container at `addr`. -/
def readRelations (h : SnapHeap) (addr : Nat) : List (Int × RelationSnapshotRef) :=
  (assocLookup h.relMapCells addr).getD []

/-- Contents of the storage container at `addr`. -/
def readStorageMap (h : SnapHeap) (addr : Nat) : List (String × StorageSnapshot) :=
  (assocLookup h.storageMapCells addr).getD []

/-- The settings version the watcher (or a snapshot holder) observes for
`unit` in relation `rid` through the relations container at `addr`:
a Go double dereference `m[rid].Members[unit]`. -/
def readMember (h : SnapHeap) (addr : Nat) (rid : Int) (unit : String) : Option Int :=
  match assocLookup (readRelations h addr) rid with
  | none => none
  | some r =>
      match assocLookup h.memberCells r.membersRef with
      | none => none
      | some m => assocLookup m unit

/-- A write `m[rid] = r` through the relations container at `addr`. -/
def writeRelEntry (h : SnapHeap) (addr : Nat) (rid : Int) (r : RelationSnapshotRef) : SnapHeap :=
  let cell := readRelations h addr
  { h with relMapCells := assocInsert h.relMapCells addr (assocInsert cell rid r) }

/-- A `delete(m, rid)` through the relations container at `addr`. -/
def eraseRelEntry (h : SnapHeap) (addr : Nat) (rid : Int) : SnapHeap :=
  let cell := readRelations h addr
  { h with relMapCells := assocInsert h.relMapCells addr (assocErase cell rid) }

/-- A write `m[tag] = s` through the storage container at `addr`. -/
def writeStorageEntry (h : SnapHeap) (addr : Nat) (tag : String) (s : StorageSnapshot) : SnapHeap :=
  let cell := readStorageMap h addr
  { h with storageMapCells := assocInsert h.storageMapCells addr (assocInsert cell tag s) }

/-- A `delete(m, tag)` through the storage container at `addr`. -/
def eraseStorageEntry (h : SnapHeap) (addr : Nat) (tag : String) : SnapHeap :=
  let cell := readStorageMap h addr
  { h with storageMapCells := assocInsert h.storageMapCells addr (assocErase cell tag) }

/-- A write `members[unit] = v` into the members container at `addr`. -/
def writeMemberEntry (h : SnapHeap) (addr : Nat) (unit : String) (v : Int) : SnapHeap :=
  let cell := (assocLookup h.memberCells addr).getD []
  { h with memberCells := assocInsert h.memberCells addr (assocInsert cell unit v) }

/-- `Snapshot()`'s two copy loops: allocate a fresh `Relations` container and
a fresh `Storage` container and copy each struct value into them verbatim
(so a `RelationSnapshot`'s `Members` header is shared; `StorageSnapshot` has
no header to share).  Returns the watcher with the grown heap, the relations
copy's address and the storage copy's address. -/
def snapshotCopy (w : HeapWatcher) : HeapWatcher × Nat × Nat :=
  let rels := readRelations w.heap w.currentRelationsRef
  let sto := readStorageMap w.heap w.currentStorageRef
  let a := w.heap.nextAddr
  let heap' := { w.heap with
    relMapCells := assocInsert w.heap.relMapCells a rels
    storageMapCells := assocInsert w.heap.storageMapCells (a + 1) sto
    nextAddr := a + 2 }
  ({ w with heap := heap' }, a, a + 1)

/-! ## A concrete startup scenario (used to evaluate the initial gate) -/

/-- A relations oracle whose lookups all report the relation gone. -/
def sampleRelEnv : RelEnv :=
  { lookup := fun _ => .notFoundOrUnauthorized
    watchInit := fun _ => .ok []
    stopRes := fun _ => none }

/-- A storage oracle whose life queries all report not-found. -/
def sampleStorageEnv : StorageEnv :=
  { batchErr := none
    lifeResult := fun _ => .notFound
    startRes := fun _ => none
    stopRes := fun _ => none }

/-- The loop state right after the claim-leader step of a fresh watcher that
is not the leader. -/
def sampleLoopStart : LoopState :=
  { w := initialWatcherState
    seenUnitChange := false
    seenServiceChange := false
    seenConfigChange := false
    seenRelationsChange := false
    seenAddressesChange := false
    seenStorageChange := false
    seenLeaderSettingsChange := false
    seenLeadershipChange := true
    eventsObserved := 1 }

/-- One initial event from each of the seven watched channels (leadership
was already observed at the claim-leader step). -/
def sampleInitialEvents : List LoopEvent :=
  [ .unitEv (.ok (.alive, .modeNone))
  , .serviceEv (.ok (none, false))
  , .configEv
  , .addressesEv
  , .leaderSettingsEv
  , .relationsEv sampleRelEnv []
  , .storageEv sampleStorageEnv [] ]

/-- A watcher tracking one relation: key `"db:rel"`, relation id 0, one
member `u/0` at settings version 7. -/
def sampleRelationState : WatcherState :=
  { current := { initialSnapshot with
      relations := [(0, { life := .alive, members := [("u/0", 7)] })] }
    relations := [("db:rel", 0)]
    storageWatchers := []
    stoppedRelationWatchers := []
    stoppedStorageWatchers := [] }

/-- A heap-model watcher with one relation (id 1) whose `Members` container
is cell 1 holding `u/0 ↦ 1`; the relations container is cell 0 and the
storage container is cell 2, holding one attachment `data/0`. -/
def sampleHeapWatcher : HeapWatcher :=
  { heap := { relMapCells := [(0, [(1, { life := .alive, membersRef := 1 })])]
              storageMapCells :=
                [(2, [("data/0",
                  { tag := "data/0", life := .alive, kind := 0, location := "", attached := false })])]
              memberCells := [(1, [("u/0", 1)])]
              nextAddr := 3 }
    currentRelationsRef := 0
    currentStorageRef := 2 }

end RemoteState

namespace MgoTxn

/-! ## The mgo/txn queue-length patch
(`src/patches/mgo_1_txn_queue_length_pr463.diff`) -/

inductive TxnState
  | tpreparing
  | tprepared
  | taborting
  | tapplying
  | taborted
  | tapplied
  deriving DecidableEq, Repr

/-- A transaction: its id (which also stands for its queue tokens, real
tokens being `<id>_<nonce>`) and its state. -/
structure Txn where
  tid : String
  state : TxnState
  deriving DecidableEq, Repr

/-- The target document's identity (`dkey.Id`, `dkey.C`) and its
`txn-queue`. -/
structure TxnDoc where
  docId : String
  docC : String
  queue : List String
  deriving DecidableEq, Repr

/-- `RunnerOptions{MaxTxnQueueLength, AssertionCleanupLength}`; 0 disables
the corresponding bound. -/
structure RunnerOptions where
  MaxTxnQueueLength : Int
  AssertionCleanupLength : Int
  deriving DecidableEq, Repr

def defaultMaxTxnQueueLength : Int := 1000

def defaultAssertionCleanupLength : Int := 10

/-- `DefaultRunnerOptions()`. -/
def DefaultRunnerOptions : RunnerOptions :=
  { MaxTxnQueueLength := defaultMaxTxnQueueLength
    AssertionCleanupLength := defaultAssertionCleanupLength }

structure Runner where
  opts : RunnerOptions
  deriving DecidableEq, Repr

/-- `NewRunner`: constructed with `DefaultRunnerOptions()`. -/
def NewRunner : Runner := { opts := DefaultRunnerOptions }

/-- `SetOptions`: replaces the whole options value. -/
def SetOptions (r : Runner) (opts : RunnerOptions) : Runner :=
  { r with opts := opts }

/-- The error text of the queue-length abort:
`fmt.Errorf("txn-queue for %v in %q has too many transactions (%d)",
dkey.Id, dkey.C, len(info.Queue))`. -/
def tooManyTransactionsMsg (docId docC : String) (n : Nat) : String :=
  "txn-queue for " ++ docId ++ " in \"" ++ docC ++ "\" has too many transactions ("
    ++ toString n ++ ")"

/-- `abortOrReload` as patched: the set-aborting precondition accepts
`tprepared` *or* `tpreparing` (pre-patch only `tprepared`), matching the
document by its current state; on success the transaction's tokens for the
`pull` set are pulled from the touched document's `txn-queue` (the diff's
comment: "abortOrReload will pull the tokens from all of the docs that we've
touched so far").  The reload path taken for other states is not exercised by
the queue-length check and is left as the identity here. -/
def abortOrReload (t : Txn) (doc : TxnDoc) (pullIds : List String) : Txn × TxnDoc :=
  if t.state = TxnState.tprepared ∨ t.state = TxnState.tpreparing then
    ({ t with state := TxnState.taborting },
     { doc with queue := doc.queue.filter (fun tok => !pullIds.contains tok) })
  else (t, doc)

/-- The prepare-phase `Apply` on the target document: `$addToSet` of the
candidate's token with `ReturnNew`, so `info.Queue` is the queue with the
token appended (unless already present). -/
def preparePushToken (doc : TxnDoc) (t : Txn) : TxnDoc :=
  if t.tid ∈ doc.queue then doc
  else { doc with queue := doc.queue ++ [t.tid] }

/-- The queue-length check the patch inserts right after that `Apply`: when
`MaxTxnQueueLength > 0` and `len(info.Queue)` exceeds it, abort the candidate
via `abortOrReload` (pulling its token back out) and report the
"too many transactions" error naming the document id, the collection and
`len(info.Queue)`; otherwise the prepare proceeds with the pushed token.
Returns the flusher's outcome together with the document's resulting
`txn-queue`. -/
def flusherQueueStep (opts : RunnerOptions) (t : Txn) (doc : TxnDoc) :
    Except String Unit × TxnDoc :=
  let info := preparePushToken doc t
  if opts.MaxTxnQueueLength > 0 ∧ (info.queue.length : Int) > opts.MaxTxnQueueLength then
    let (_, doc') := abortOrReload t info [t.tid]
    (.error (tooManyTransactionsMsg doc.docId doc.docC info.queue.length), doc')
  else
    (.ok (), info)

end MgoTxn

/-! # Theorems -/

namespace RemoteState

variable {α : Type} {β : Type} [DecidableEq α]

theorem assocLookup_insert_self (l : List (α × β)) (k : α) (v : β) :
    assocLookup (assocInsert l k v) k = some v := by
  simp [assocInsert, assocLookup]

theorem assocLookup_erase_self (l : List (α × β)) (k : α) :
    assocLookup (assocErase l k) k = none := by
  induction l with
  | nil => rfl
  | cons p rest ih =>
    obtain ⟨k', v⟩ := p
    by_cases h : k' = k
    · simpa [assocErase, h] using ih
    · simpa [assocErase, assocLookup, h] using ih

theorem assocLookup_erase_ne (l : List (α × β)) (k k' : α) (h : k ≠ k') :
    assocLookup (assocErase l k) k' = assocLookup l k' := by
  induction l with
  | nil => rfl
  | cons p rest ih =>
    obtain ⟨q, v⟩ := p
    have h' : ¬k = k' := h
    have h'' : ¬k' = k := fun hc => h hc.symm
    by_cases hq : q = k
    · have hq' : ¬q = k' := fun hc => h (hq ▸ hc ▸ rfl)
      simp [assocErase, assocLookup, hq, hq', h', ih]
    · by_cases hq' : q = k'
      · simp [assocErase, assocLookup, hq, hq', h'']
      · simp [assocErase, assocLookup, hq, hq', ih]

theorem assocLookup_insert_ne (l : List (α × β)) (k k' : α) (v : β) (h : k ≠ k') :
    assocLookup (assocInsert l k v) k' = assocLookup l k' := by
  simp only [assocInsert, assocLookup, if_neg h]
  exact assocLookup_erase_ne l k k' h

theorem assocErase_of_lookup_none (l : List (α × β)) (k : α)
    (h : assocLookup l k = none) : assocErase l k = l := by
  induction l with
  | nil => rfl
  | cons p rest ih =>
    obtain ⟨q, v⟩ := p
    by_cases hq : q = k
    · simp [assocLookup, hq] at h
    · simp [assocLookup, hq] at h
      simp [assocErase, hq, ih h]

theorem assocErase_idem (l : List (α × β)) (k : α) :
    assocErase (assocErase l k) k = assocErase l k := by
  induction l with
  | nil => rfl
  | cons p rest ih =>
    obtain ⟨q, v⟩ := p
    by_cases hq : q = k
    · simp [assocErase, hq, ih]
    · simp [assocErase, hq, ih]

theorem assocErase_insert (l : List (α × β)) (k : α) (v : β) :
    assocErase (assocInsert l k v) k = assocErase l k := by
  simp [assocInsert, assocErase, assocErase_idem]

/-! ## C8 — `ClearResolvedMode` frame conditions -/

/-- C8: `ClearResolvedMode` sets the snapshot's `ResolvedMode` to None under
the mutex, leaves every other snapshot field (`Life`, `CharmURL`,
`ForceCharmUpgrade`, `ConfigVersion`, `LeaderSettingsVersion`, `Leader`,
`Relations`, `Storage`) unchanged, and never sends a signal on the output
channel (its body has no send on `w.out`). -/
theorem clearResolvedMode_spec (w : WatcherState) :
    snapshotRead (clearResolvedMode w).1 = { snapshotRead w with resolvedMode := .modeNone }
    ∧ (snapshotRead (clearResolvedMode w).1).resolvedMode = ResolvedMode.modeNone
    ∧ (snapshotRead (clearResolvedMode w).1).life = (snapshotRead w).life
    ∧ (snapshotRead (clearResolvedMode w).1).charmURL = (snapshotRead w).charmURL
    ∧ (snapshotRead (clearResolvedMode w).1).forceCharmUpgrade = (snapshotRead w).forceCharmUpgrade
    ∧ (snapshotRead (clearResolvedMode w).1).configVersion = (snapshotRead w).configVersion
    ∧ (snapshotRead (clearResolvedMode w).1).leaderSettingsVersion = (snapshotRead w).leaderSettingsVersion
    ∧ (snapshotRead (clearResolvedMode w).1).leader = (snapshotRead w).leader
    ∧ (snapshotRead (clearResolvedMode w).1).relations = (snapshotRead w).relations
    ∧ (snapshotRead (clearResolvedMode w).1).storage = (snapshotRead w).storage
    ∧ (clearResolvedMode w).2 = false := by
  refine ⟨rfl, rfl, rfl, rfl, rfl, rfl, rfl, rfl, rfl, rfl, rfl⟩

/-! ## C10 — unknown relation-units deltas are discarded -/

/-- C10: a relation-units delta whose `relationId` is not a key of the
current `Relations` map makes `relationUnitsChanged` return nil with the
entire state (hence the whole Snapshot) unchanged: deltas addressed to
unknown or already-removed relations are silently discarded. -/
theorem relationUnitsChanged_unknown (w : WatcherState) (c : RelationUnitsChange)
    (h : assocLookup w.current.relations c.relationId = none) :
    relationUnitsChanged w c = .ok w := by
  simp [relationUnitsChanged, h]

theorem relationUnitsChanged_unknown_witness :
    assocLookup initialWatcherState.current.relations (5 : Int) = none
    ∧ relationUnitsChanged initialWatcherState ⟨5, [("u/1", 1)], ["v/2"]⟩ = .ok initialWatcherState :=
  ⟨rfl, relationUnitsChanged_unknown initialWatcherState ⟨5, [("u/1", 1)], ["v/2"]⟩ rfl⟩

/-! ## C9 — the initial claim-leader select and the dying channel

The claim says the loop does *not* observe `dying` while waiting on
`ClaimLeader.Ready()`.  The source's select has a
`case <-w.tomb.Dying(): return tomb.ErrDying` arm next to
`case <-claimLeader.Ready()`, so a `Kill()` during the wait is acted upon
immediately. -/

/-- C9 counterexample: formalising the claim as "when `dying` fires while
`ClaimLeader.Ready()` is still pending, the loop does not return the dying
sentinel", it is already false at the freshly constructed watcher: the
initial select returns `tomb.ErrDying` at once. -/
theorem loopInit_dying_counterexample :
    loopInit initialWatcherState ClaimLeaderWait.dyingFirst = .error GoErr.errDying := rfl

/-- C9 (amended): the startup select on `ClaimLeader.Ready()` *does* observe
the dying channel: a `Kill()` issued during that wait makes the loop return
the dying sentinel without waiting for the claim-leader result; when instead
the result becomes ready first, the loop records the leadership outcome,
counts the leadership initial event and proceeds. -/
theorem loopInit_observes_dying (w : WatcherState) (isLeader : Bool) :
    loopInit w ClaimLeaderWait.dyingFirst = .error GoErr.errDying
    ∧ ∃ s, loopInit w (ClaimLeaderWait.readyFirst isLeader) = .ok s
        ∧ s.w.current.leader = isLeader
        ∧ s.seenLeadershipChange = true
        ∧ s.eventsObserved = 1 := by
  refine ⟨rfl, ?_⟩
  refine ⟨{ w := { w with current := { w.current with leader := isLeader } }
            seenUnitChange := false
            seenServiceChange := false
            seenConfigChange := false
            seenRelationsChange := false
            seenAddressesChange := false
            seenStorageChange := false
            seenLeaderSettingsChange := false
            seenLeadershipChange := true
            eventsObserved := 1 }, rfl, rfl, rfl, rfl⟩

/-! ## C1 — the initial-event gate -/

theorem countFlags_le (s : LoopState) : countFlags s ≤ 8 := by
  have hb : ∀ b : Bool, b.toNat ≤ 1 := fun b => by cases b <;> simp
  have h1 := hb s.seenUnitChange
  have h2 := hb s.seenServiceChange
  have h3 := hb s.seenConfigChange
  have h4 := hb s.seenRelationsChange
  have h5 := hb s.seenAddressesChange
  have h6 := hb s.seenStorageChange
  have h7 := hb s.seenLeaderSettingsChange
  have h8 := hb s.seenLeadershipChange
  unfold countFlags
  omega

theorem allSeen_of_countFlags (s : LoopState) (h : countFlags s = 8) : allSeen s := by
  have hb : ∀ b : Bool, b.toNat ≤ 1 := fun b => by cases b <;> simp
  have he : ∀ b : Bool, b.toNat = 1 → b = true := fun b => by cases b <;> simp
  have h1 := hb s.seenUnitChange
  have h2 := hb s.seenServiceChange
  have h3 := hb s.seenConfigChange
  have h4 := hb s.seenRelationsChange
  have h5 := hb s.seenAddressesChange
  have h6 := hb s.seenStorageChange
  have h7 := hb s.seenLeaderSettingsChange
  have h8 := hb s.seenLeadershipChange
  unfold countFlags at h
  unfold allSeen
  refine ⟨he _ ?_, he _ ?_, he _ ?_, he _ ?_, he _ ?_, he _ ?_, he _ ?_, he _ ?_⟩ <;> omega

/-- Every successful loop step keeps `eventsObserved` equal to the number of
set initial-event flags (each source is counted at most once), and a `true`
signal flag means the step's `fire()` found `eventsObserved = requiredEvents`. -/
theorem stepLoop_gate (s : LoopState) (ev : LoopEvent) (s' : LoopState) (b : Bool)
    (h : stepLoop s ev = .ok (s', b)) (hinv : s.eventsObserved = countFlags s) :
    s'.eventsObserved = countFlags s'
    ∧ (b = true → s'.eventsObserved = requiredEvents) := by
  cases ev with
  | unitEv r =>
    simp only [stepLoop] at h
    split at h
    · cases h
    · rename_i w1 heq
      injection h with h
      injection h with h1 h2
      subst h1
      subst h2
      constructor
      · by_cases hx : s.seenUnitChange
        · simp only [observedEvent, hx, if_true]
          unfold countFlags at hinv ⊢
          simp only
          rw [hinv, hx]
        · simp only [observedEvent, hx, if_false]
          unfold countFlags at hinv ⊢
          simp only
          simp only [Bool.not_eq_true] at hx
          rw [hx] at hinv
          simp [Bool.toNat] at hinv ⊢
          omega
      · intro hb
        simp only [fireGate, beq_iff_eq] at hb
        exact hb
  | serviceEv r =>
    simp only [stepLoop] at h
    split at h
    · cases h
    · rename_i w1 heq
      injection h with h
      injection h with h1 h2
      subst h1
      subst h2
      constructor
      · by_cases hx : s.seenServiceChange
        · simp only [observedEvent, hx, if_true]
          unfold countFlags at hinv ⊢
          simp only
          rw [hinv, hx]
        · simp only [observedEvent, hx, if_false]
          unfold countFlags at hinv ⊢
          simp only
          simp only [Bool.not_eq_true] at hx
          rw [hx] at hinv
          simp [Bool.toNat] at hinv ⊢
          omega
      · intro hb
        simp only [fireGate, beq_iff_eq] at hb
        exact hb
  | configEv =>
    simp only [stepLoop] at h
    split at h
    · cases h
    · rename_i w1 heq
      injection h with h
      injection h with h1 h2
      subst h1
      subst h2
      constructor
      · by_cases hx : s.seenConfigChange
        · simp only [observedEvent, hx, if_true]
          unfold countFlags at hinv ⊢
          simp only
          rw [hinv, hx]
        · simp only [observedEvent, hx, if_false]
          unfold countFlags at hinv ⊢
          simp only
          simp only [Bool.not_eq_true] at hx
          rw [hx] at hinv
          simp [Bool.toNat] at hinv ⊢
          omega
      · intro hb
        simp only [fireGate, beq_iff_eq] at hb
        exact hb
  | addressesEv =>
    simp only [stepLoop] at h
    split at h
    · cases h
    · rename_i w1 heq
      injection h with h
      injection h with h1 h2
      subst h1
      subst h2
      constructor
      · by_cases hx : s.seenAddressesChange
        · simp only [observedEvent, hx, if_true]
          unfold countFlags at hinv ⊢
          simp only
          rw [hinv, hx]
        · simp only [observedEvent, hx, if_false]
          unfold countFlags at hinv ⊢
          simp only
          simp only [Bool.not_eq_true] at hx
          rw [hx] at hinv
          simp [Bool.toNat] at hinv ⊢
          omega
      · intro hb
        simp only [fireGate, beq_iff_eq] at hb
        exact hb
  | leaderSettingsEv =>
    simp only [stepLoop] at h
    split at h
    · cases h
    · rename_i w1 heq
      injection h with h
      injection h with h1 h2
      subst h1
      subst h2
      constructor
      · by_cases hx : s.seenLeaderSettingsChange
        · simp only [observedEvent, hx, if_true]
          unfold countFlags at hinv ⊢
          simp only
          rw [hinv, hx]
        · simp only [observedEvent, hx, if_false]
          unfold countFlags at hinv ⊢
          simp only
          simp only [Bool.not_eq_true] at hx
          rw [hx] at hinv
          simp [Bool.toNat] at hinv ⊢
          omega
      · intro hb
        simp only [fireGate, beq_iff_eq] at hb
        exact hb
  | relationsEv env keys =>
    simp only [stepLoop] at h
    split at h
    · cases h
    · rename_i w1 heq
      injection h with h
      injection h with h1 h2
      subst h1
      subst h2
      constructor
      · by_cases hx : s.seenRelationsChange
        · simp only [observedEvent, hx, if_true]
          unfold countFlags at hinv ⊢
          simp only
          rw [hinv, hx]
        · simp only [observedEvent, hx, if_false]
          unfold countFlags at hinv ⊢
          simp only
          simp only [Bool.not_eq_true] at hx
          rw [hx] at hinv
          simp [Bool.toNat] at hinv ⊢
          omega
      · intro hb
        simp only [fireGate, beq_iff_eq] at hb
        exact hb
  | storageEv env keys =>
    simp only [stepLoop] at h
    split at h
    · cases h
    · rename_i w1 heq
      injection h with h
      injection h with h1 h2
      subst h1
      subst h2
      constructor
      · by_cases hx : s.seenStorageChange
        · simp only [observedEvent, hx, if_true]
          unfold countFlags at hinv ⊢
          simp only
          rw [hinv, hx]
        · simp only [observedEvent, hx, if_false]
          unfold countFlags at hinv ⊢
          simp only
          simp only [Bool.not_eq_true] at hx
          rw [hx] at hinv
          simp [Bool.toNat] at hinv ⊢
          omega
      · intro hb
        simp only [fireGate, beq_iff_eq] at hb
        exact hb
  | minionEv =>
    simp only [stepLoop] at h
    split at h
    · cases h
    · rename_i w1 heq
      injection h with h
      injection h with h1 h2
      subst h1
      subst h2
      exact ⟨hinv, fun hb => by simp only [fireGate, beq_iff_eq] at hb; exact hb⟩
  | leaderEv =>
    simp only [stepLoop] at h
    split at h
    · cases h
    · rename_i w1 heq
      injection h with h
      injection h with h1 h2
      subst h1
      subst h2
      exact ⟨hinv, fun hb => by simp only [fireGate, beq_iff_eq] at hb; exact hb⟩
  | storageAttachmentEv e chanOpen =>
    simp only [stepLoop] at h
    split at h
    · split at h
      · cases h
      · rename_i w1 heq
        injection h with h
        injection h with h1 h2
        subst h1
        subst h2
        exact ⟨hinv, fun hb => by simp only [fireGate, beq_iff_eq] at hb; exact hb⟩
    · injection h with h
      injection h with h1 h2
      subst h1
      subst h2
      exact ⟨hinv, fun hb => by simp only [fireGate, beq_iff_eq] at hb; exact hb⟩
  | relationUnitsEv c =>
    simp only [stepLoop] at h
    split at h
    · cases h
    · rename_i w1 heq
      injection h with h
      injection h with h1 h2
      subst h1
      subst h2
      exact ⟨hinv, fun hb => by simp only [fireGate, beq_iff_eq] at hb; exact hb⟩

/-- A loop step never clears an initial-event flag. -/
theorem stepLoop_allSeen (s : LoopState) (ev : LoopEvent) (s' : LoopState) (b : Bool)
    (h : stepLoop s ev = .ok (s', b)) (ha : allSeen s) : allSeen s' := by
  obtain ⟨a1, a2, a3, a4, a5, a6, a7, a8⟩ := ha
  cases ev <;> simp only [stepLoop] at h
  case unitEv r =>
    split at h
    · cases h
    · injection h with h
      injection h with h1 h2
      subst h1
      exact ⟨by simp [observedEvent, a1], a2, a3, a4, a5, a6, a7, a8⟩
  case serviceEv r =>
    split at h
    · cases h
    · injection h with h
      injection h with h1 h2
      subst h1
      exact ⟨a1, by simp [observedEvent, a2], a3, a4, a5, a6, a7, a8⟩
  case configEv =>
    split at h
    · cases h
    · injection h with h
      injection h with h1 h2
      subst h1
      exact ⟨a1, a2, by simp [observedEvent, a3], a4, a5, a6, a7, a8⟩
  case addressesEv =>
    split at h
    · cases h
    · injection h with h
      injection h with h1 h2
      subst h1
      exact ⟨a1, a2, a3, a4, by simp [observedEvent, a5], a6, a7, a8⟩
  case leaderSettingsEv =>
    split at h
    · cases h
    · injection h with h
      injection h with h1 h2
      subst h1
      exact ⟨a1, a2, a3, a4, a5, a6, by simp [observedEvent, a7], a8⟩
  case relationsEv env keys =>
    split at h
    · cases h
    · injection h with h
      injection h with h1 h2
      subst h1
      exact ⟨a1, a2, a3, by simp [observedEvent, a4], a5, a6, a7, a8⟩
  case storageEv env keys =>
    split at h
    · cases h
    · injection h with h
      injection h with h1 h2
      subst h1
      exact ⟨a1, a2, a3, a4, a5, by simp [observedEvent, a6], a7, a8⟩
  case minionEv =>
    split at h
    · cases h
    · injection h with h
      injection h with h1 h2
      subst h1
      exact ⟨a1, a2, a3, a4, a5, a6, a7, a8⟩
  case leaderEv =>
    split at h
    · cases h
    · injection h with h
      injection h with h1 h2
      subst h1
      exact ⟨a1, a2, a3, a4, a5, a6, a7, a8⟩
  case storageAttachmentEv e chanOpen =>
    split at h
    · split at h
      · cases h
      · injection h with h
        injection h with h1 h2
        subst h1
        exact ⟨a1, a2, a3, a4, a5, a6, a7, a8⟩
    · injection h with h
      injection h with h1 h2
      subst h1
      exact ⟨a1, a2, a3, a4, a5, a6, a7, a8⟩
  case relationUnitsEv c =>
    split at h
    · cases h
    · injection h with h
      injection h with h1 h2
      subst h1
      exact ⟨a1, a2, a3, a4, a5, a6, a7, a8⟩

theorem runLoop_allSeen (evs : List LoopEvent) :
    ∀ s : LoopState, allSeen s → allSeen (runLoop s evs).1 := by
  induction evs with
  | nil => intro s hs; exact hs
  | cons ev rest ih =>
    intro s hs
    unfold runLoop
    split
    · exact hs
    · rename_i s' b heq
      exact ih s' (stepLoop_allSeen s ev s' b heq hs)

theorem runLoop_gate (evs : List LoopEvent) :
    ∀ s : LoopState, s.eventsObserved = countFlags s →
      (runLoop s evs).1.eventsObserved = countFlags (runLoop s evs).1
      ∧ (true ∈ (runLoop s evs).2 → allSeen (runLoop s evs).1) := by
  induction evs with
  | nil =>
    intro s hinv
    exact ⟨hinv, fun hc => by simp [runLoop] at hc⟩
  | cons ev rest ih =>
    intro s hinv
    unfold runLoop
    split
    · exact ⟨hinv, fun hc => by simp at hc⟩
    · rename_i s' b heq
      obtain ⟨hinv', hgate⟩ := stepLoop_gate s ev s' b heq hinv
      obtain ⟨ih1, ih2⟩ := ih s' hinv'
      refine ⟨ih1, ?_⟩
      intro hmem
      rcases List.mem_cons.mp hmem with hb | hrest
      · have hseen : allSeen s' := by
          apply allSeen_of_countFlags
          rw [← hinv']
          exact hgate hb.symm
        exact runLoop_allSeen rest s' hseen
      · exact ih2 hrest

/-- C1: for every run of the aggregator loop from the post-claim-leader
state, `eventsObserved` always equals the number of sources whose initial
event has been observed (each of the eight primary sources is counted at most
once, so the counter never exceeds `requiredEvents`), and whenever `fire()`
attempts a send on the `RemoteStateChanged` channel all eight sources — unit,
service, config, addresses, relations, storage, leader settings, leadership —
have already delivered their initial event. -/
theorem initial_gate (w : WatcherState) (isLeader : Bool) (s0 : LoopState)
    (h0 : loopInit w (ClaimLeaderWait.readyFirst isLeader) = .ok s0)
    (evs : List LoopEvent) :
    (runLoop s0 evs).1.eventsObserved = countFlags (runLoop s0 evs).1
    ∧ (runLoop s0 evs).1.eventsObserved ≤ requiredEvents
    ∧ (true ∈ (runLoop s0 evs).2 → allSeen (runLoop s0 evs).1) := by
  have hinv0 : s0.eventsObserved = countFlags s0 := by
    simp only [loopInit, leadershipChanged] at h0
    injection h0 with h0
    subst h0
    rfl
  obtain ⟨h1, h2⟩ := runLoop_gate evs s0 hinv0
  refine ⟨h1, ?_, h2⟩
  rw [h1]
  exact countFlags_le _

theorem initial_gate_witness :
    loopInit initialWatcherState (ClaimLeaderWait.readyFirst false) = .ok sampleLoopStart
    ∧ true ∈ (runLoop sampleLoopStart sampleInitialEvents).2
    ∧ allSeen (runLoop sampleLoopStart sampleInitialEvents).1 :=
  ⟨rfl, by decide,
   (initial_gate initialWatcherState false sampleLoopStart rfl sampleInitialEvents).2.2
     (by decide)⟩

/-! ## C2 — `ConfigVersion` increments and monotonicity

`ConfigVersion` is a Go 64-bit `int`, so `ConfigVersion++` wraps from
`maxInt64` to `minInt64`.  Every handler other than
`configChanged`/`addressesChanged` leaves the counter untouched; those two
apply `int64Inc`.  The lemmas below walk every handler, then every loop step,
then whole runs; the counter is non-decreasing exactly as long as it has not
wrapped, and a run of `2^63` config events makes it wrap and decrease. -/

theorem int64Wrap_eq_self (x : Int) (h1 : minInt64 ≤ x) (h2 : x ≤ maxInt64) :
    int64Wrap x = x := by
  unfold int64Wrap
  unfold minInt64 at h1
  unfold maxInt64 at h2
  omega

theorem int64Inc_eq_add_one (x : Int) (h1 : minInt64 ≤ x) (h2 : x < maxInt64) :
    int64Inc x = x + 1 := by
  unfold int64Inc int64Wrap
  unfold minInt64 at h1
  unfold maxInt64 at h2
  omega

theorem int64Inc_range (x : Int) :
    minInt64 ≤ int64Inc x ∧ int64Inc x ≤ maxInt64 := by
  unfold int64Inc int64Wrap minInt64 maxInt64
  omega

theorem int64Wrap_add_cast (x : Int) (n : Nat) :
    int64Wrap (int64Inc x + n) = int64Wrap (x + 1 + n) := by
  unfold int64Inc int64Wrap
  omega

theorem relationsChangedKey_configVersion (env : RelEnv) (w : WatcherState)
    (key : String) (w' : WatcherState) (h : relationsChangedKey env w key = .ok w') :
    w'.current.configVersion = w.current.configVersion := by
  unfold relationsChangedKey at h
  split at h
  · split at h
    · split at h
      · cases h
      · injection h with h
        subst h
        rfl
    · injection h with h
      subst h
      rfl
  · cases h
  · split at h
    · injection h with h
      subst h
      rfl
    · split at h
      · cases h
      · injection h with h
        subst h
        rfl

theorem relationsChanged_configVersion (env : RelEnv) (keys : List String) :
    ∀ w w' : WatcherState, relationsChanged env w keys = .ok w' →
      w'.current.configVersion = w.current.configVersion := by
  induction keys with
  | nil =>
    intro w w' h
    unfold relationsChanged at h
    injection h with h
    subst h
    rfl
  | cons key rest ih =>
    intro w w' h
    unfold relationsChanged at h
    split at h
    · cases h
    · rename_i w1 heq
      rw [ih w1 w' h, relationsChangedKey_configVersion env w key w1 heq]

theorem startStorageAttachmentWatcher_current (env : StorageEnv) (w : WatcherState)
    (tag : String) (w' : WatcherState)
    (h : startStorageAttachmentWatcher env w tag = .ok w') :
    w'.current = w.current := by
  unfold startStorageAttachmentWatcher at h
  split at h
  · injection h with h
    subst h
    rfl
  · split at h
    · cases h
    · injection h with h
      subst h
      rfl

theorem stopStorageAttachmentWatcher_current (env : StorageEnv) (w : WatcherState)
    (tag : String) (w' : WatcherState)
    (h : stopStorageAttachmentWatcher env w tag = .ok w') :
    w'.current = w.current := by
  unfold stopStorageAttachmentWatcher at h
  split at h
  · split at h
    · cases h
    · injection h with h
      subst h
      rfl
  · injection h with h
    subst h
    rfl

theorem storageChangedKey_configVersion (env : StorageEnv) (w : WatcherState)
    (key : String) (w' : WatcherState) (h : storageChangedKey env w key = .ok w') :
    w'.current.configVersion = w.current.configVersion := by
  unfold storageChangedKey at h
  split at h
  · rw [startStorageAttachmentWatcher_current env _ key w' h]
  · rw [stopStorageAttachmentWatcher_current env _ key w' h]
  · cases h

theorem storageChanged_go_configVersion (env : StorageEnv) (keys : List String) :
    ∀ w w' : WatcherState, storageChanged.go env w keys = .ok w' →
      w'.current.configVersion = w.current.configVersion := by
  induction keys with
  | nil =>
    intro w w' h
    unfold storageChanged.go at h
    injection h with h
    subst h
    rfl
  | cons key rest ih =>
    intro w w' h
    unfold storageChanged.go at h
    split at h
    · cases h
    · rename_i w1 heq
      rw [ih w1 w' h, storageChangedKey_configVersion env w key w1 heq]

theorem storageChanged_configVersion (env : StorageEnv) (w : WatcherState)
    (keys : List String) (w' : WatcherState) (h : storageChanged env w keys = .ok w') :
    w'.current.configVersion = w.current.configVersion := by
  unfold storageChanged at h
  split at h
  · cases h
  · exact storageChanged_go_configVersion env keys w w' h

theorem relationUnitsChanged_configVersion (w : WatcherState) (c : RelationUnitsChange)
    (w' : WatcherState) (h : relationUnitsChanged w c = .ok w') :
    w'.current.configVersion = w.current.configVersion := by
  unfold relationUnitsChanged at h
  split at h
  · injection h with h
    subst h
    rfl
  · injection h with h
    subst h
    rfl

theorem storageAttachmentChanged_configVersion (w : WatcherState)
    (e : StorageSnapshotEvent) (w' : WatcherState)
    (h : storageAttachmentChanged w e = .ok w') :
    w'.current.configVersion = w.current.configVersion := by
  unfold storageAttachmentChanged at h
  split at h
  · injection h with h
    subst h
    rfl
  · injection h with h
    subst h
    rfl

/-- Every successful loop step either leaves `ConfigVersion` untouched or
applies exactly one wrapping 64-bit increment. -/
theorem stepLoop_configVersion (s : LoopState) (ev : LoopEvent) (s' : LoopState)
    (b : Bool) (h : stepLoop s ev = .ok (s', b)) :
    s'.w.current.configVersion = s.w.current.configVersion
    ∨ s'.w.current.configVersion = int64Inc s.w.current.configVersion := by
  cases ev with
  | unitEv r =>
    simp only [stepLoop] at h
    split at h
    · cases h
    · rename_i w1 heq
      injection h with h
      injection h with h1 h2
      subst h1
      unfold unitChanged at heq
      split at heq
      · cases heq
      · injection heq with heq
        subst heq
        exact Or.inl rfl
  | serviceEv r =>
    simp only [stepLoop] at h
    split at h
    · cases h
    · rename_i w1 heq
      injection h with h
      injection h with h1 h2
      subst h1
      unfold serviceChanged at heq
      split at heq
      · cases heq
      · injection heq with heq
        subst heq
        exact Or.inl rfl
  | configEv =>
    simp only [stepLoop] at h
    split at h
    · cases h
    · rename_i w1 heq
      injection h with h
      injection h with h1 h2
      subst h1
      unfold configChanged at heq
      injection heq with heq
      subst heq
      exact Or.inr rfl
  | addressesEv =>
    simp only [stepLoop] at h
    split at h
    · cases h
    · rename_i w1 heq
      injection h with h
      injection h with h1 h2
      subst h1
      unfold addressesChanged at heq
      injection heq with heq
      subst heq
      exact Or.inr rfl
  | leaderSettingsEv =>
    simp only [stepLoop] at h
    split at h
    · cases h
    · rename_i w1 heq
      injection h with h
      injection h with h1 h2
      subst h1
      unfold leaderSettingsChanged at heq
      injection heq with heq
      subst heq
      exact Or.inl rfl
  | relationsEv env keys =>
    simp only [stepLoop] at h
    split at h
    · cases h
    · rename_i w1 heq
      injection h with h
      injection h with h1 h2
      subst h1
      exact Or.inl (relationsChanged_configVersion env keys s.w w1 heq)
  | storageEv env keys =>
    simp only [stepLoop] at h
    split at h
    · cases h
    · rename_i w1 heq
      injection h with h
      injection h with h1 h2
      subst h1
      exact Or.inl (storageChanged_configVersion env s.w keys w1 heq)
  | minionEv =>
    simp only [stepLoop] at h
    split at h
    · cases h
    · rename_i w1 heq
      injection h with h
      injection h with h1 h2
      subst h1
      unfold leadershipChanged at heq
      injection heq with heq
      subst heq
      exact Or.inl rfl
  | leaderEv =>
    simp only [stepLoop] at h
    split at h
    · cases h
    · rename_i w1 heq
      injection h with h
      injection h with h1 h2
      subst h1
      unfold leadershipChanged at heq
      injection heq with heq
      subst heq
      exact Or.inl rfl
  | storageAttachmentEv e chanOpen =>
    simp only [stepLoop] at h
    split at h
    · split at h
      · cases h
      · rename_i w1 heq
        injection h with h
        injection h with h1 h2
        subst h1
        exact Or.inl (storageAttachmentChanged_configVersion s.w e w1 heq)
    · injection h with h
      injection h with h1 h2
      subst h1
      exact Or.inl rfl
  | relationUnitsEv c =>
    simp only [stepLoop] at h
    split at h
    · cases h
    · rename_i w1 heq
      injection h with h
      injection h with h1 h2
      subst h1
      exact Or.inl (relationUnitsChanged_configVersion s.w c w1 heq)

theorem runLoop_cons_ok (s : LoopState) (ev : LoopEvent) (evs : List LoopEvent)
    (s' : LoopState) (b : Bool) (h : stepLoop s ev = .ok (s', b)) :
    runLoop s (ev :: evs) = ((runLoop s' evs).1, b :: (runLoop s' evs).2) := by
  conv_lhs => rw [runLoop]
  rw [h]


/-- As long as the counter cannot reach the wrap point within the run,
`ConfigVersion` is non-decreasing along the whole run. -/
theorem runLoop_configVersion (evs : List LoopEvent) :
    ∀ s : LoopState, minInt64 ≤ s.w.current.configVersion →
      s.w.current.configVersion + (evs.length : Int) ≤ maxInt64 →
      s.w.current.configVersion ≤ ((runLoop s evs).1).w.current.configVersion := by
  induction evs with
  | nil => intro s _ _; exact le_refl _
  | cons ev rest ih =>
    intro s hmin hmax
    simp only [List.length_cons] at hmax
    push_cast at hmax
    have hlen : (0 : Int) ≤ (rest.length : Int) := Int.natCast_nonneg _
    unfold runLoop
    split
    · exact le_refl _
    · rename_i s' b heq
      rcases stepLoop_configVersion s ev s' b heq with hcv | hcv
      · calc s.w.current.configVersion
            = s'.w.current.configVersion := hcv.symm
          _ ≤ _ := ih s' (by rw [hcv]; exact hmin) (by rw [hcv]; omega)
      · have hlt : s.w.current.configVersion < maxInt64 := by omega
        have hinc : s'.w.current.configVersion = s.w.current.configVersion + 1 := by
          rw [hcv, int64Inc_eq_add_one _ hmin hlt]
        calc s.w.current.configVersion
            ≤ s'.w.current.configVersion := by omega
          _ ≤ _ := ih s' (by omega) (by omega)

/-- Running `n` consecutive config-change events advances `ConfigVersion`
from an in-range value to its wrapped sum with `n`. -/
theorem runLoop_replicate_config (n : Nat) :
    ∀ s : LoopState, minInt64 ≤ s.w.current.configVersion →
      s.w.current.configVersion ≤ maxInt64 →
      ((runLoop s (List.replicate n LoopEvent.configEv)).1).w.current.configVersion
        = int64Wrap (s.w.current.configVersion + (n : Int)) := by
  induction n with
  | zero =>
    intro s hmin hmax
    have hr : ((runLoop s (List.replicate 0 LoopEvent.configEv)).1).w.current.configVersion
        = s.w.current.configVersion := rfl
    rw [hr, Nat.cast_zero, add_zero, int64Wrap_eq_self _ hmin hmax]
  | succ m ih =>
    intro s hmin hmax
    have hstep : stepLoop s LoopEvent.configEv = .ok
        ({ s with
            w := { s.w with current := { s.w.current with
              configVersion := int64Inc s.w.current.configVersion } }
            seenConfigChange := (observedEvent s.seenConfigChange s.eventsObserved).1
            eventsObserved := (observedEvent s.seenConfigChange s.eventsObserved).2 },
          fireGate (observedEvent s.seenConfigChange s.eventsObserved).2) := rfl
    have hrep : List.replicate (m + 1) LoopEvent.configEv
        = LoopEvent.configEv :: List.replicate m LoopEvent.configEv := rfl
    rw [hrep, runLoop_cons_ok s LoopEvent.configEv (List.replicate m LoopEvent.configEv)
      _ _ hstep]
    rw [ih _ (int64Inc_range s.w.current.configVersion).1
      (int64Inc_range s.w.current.configVersion).2]
    rw [int64Wrap_add_cast]
    congr 1
    push_cast
    ring

/-- C2 counterexample: from the fresh post-claim-leader state
(`ConfigVersion = 0`), `2^63 - 1` config-change events drive the counter to
`maxInt64`, and extending that same run by one more config-change event wraps
it to `minInt64 < maxInt64` — so under this interleaving
`Snapshot().ConfigVersion` decreases, and that last event's change is not
an increment by one. -/
theorem configVersion_wrap_counterexample :
    ((runLoop sampleLoopStart
        (List.replicate (2 ^ 63 - 1) LoopEvent.configEv)).1).w.current.configVersion
      = maxInt64
    ∧ ((runLoop sampleLoopStart
        (List.replicate (2 ^ 63) LoopEvent.configEv)).1).w.current.configVersion
      = minInt64
    ∧ minInt64 < maxInt64 := by
  have h0 : sampleLoopStart.w.current.configVersion = 0 := rfl
  refine ⟨?_, ?_, by decide⟩
  · rw [runLoop_replicate_config _ _ (by rw [h0]; decide) (by rw [h0]; decide), h0]
    decide
  · rw [runLoop_replicate_config _ _ (by rw [h0]; decide) (by rw [h0]; decide), h0]
    decide

/-- C2 (amended): a config-change event and an addresses-change event each
apply exactly one wrapping 64-bit increment to the single shared
`ConfigVersion` counter — literally `+ 1` whenever the counter is below
`maxInt64`, wrapping only at `maxInt64` (reached only after `2^63`
increments from the initial 0) — and `ConfigVersion` as read through
`Snapshot()` is non-decreasing under every interleaving of source events
short enough that the counter cannot wrap during it. -/
theorem configVersion_spec (s : LoopState) (evs : List LoopEvent) :
    (∃ s' b, stepLoop s LoopEvent.configEv = .ok (s', b)
      ∧ (snapshotRead s'.w).configVersion = int64Inc (snapshotRead s.w).configVersion)
    ∧ (∃ s' b, stepLoop s LoopEvent.addressesEv = .ok (s', b)
      ∧ (snapshotRead s'.w).configVersion = int64Inc (snapshotRead s.w).configVersion)
    ∧ (∀ x : Int, minInt64 ≤ x → x < maxInt64 → int64Inc x = x + 1)
    ∧ (minInt64 ≤ (snapshotRead s.w).configVersion →
       (snapshotRead s.w).configVersion + (evs.length : Int) ≤ maxInt64 →
       (snapshotRead s.w).configVersion
         ≤ (snapshotRead ((runLoop s evs).1).w).configVersion) := by
  refine ⟨?_, ?_, int64Inc_eq_add_one, runLoop_configVersion evs s⟩
  · refine
      ⟨{ s with
          w := { s.w with
            current := { s.w.current with
              configVersion := int64Inc s.w.current.configVersion } }
          seenConfigChange := (observedEvent s.seenConfigChange s.eventsObserved).1
          eventsObserved := (observedEvent s.seenConfigChange s.eventsObserved).2 },
        fireGate (observedEvent s.seenConfigChange s.eventsObserved).2, rfl, rfl⟩
  · refine
      ⟨{ s with
          w := { s.w with
            current := { s.w.current with
              configVersion := int64Inc s.w.current.configVersion } }
          seenAddressesChange := (observedEvent s.seenAddressesChange s.eventsObserved).1
          eventsObserved := (observedEvent s.seenAddressesChange s.eventsObserved).2 },
        fireGate (observedEvent s.seenAddressesChange s.eventsObserved).2, rfl, rfl⟩

theorem configVersion_spec_witness :
    (minInt64 ≤ (0 : Int) ∧ (0 : Int) < maxInt64 ∧ int64Inc 0 = 0 + 1)
    ∧ (minInt64 ≤ (snapshotRead sampleLoopStart.w).configVersion
      ∧ (snapshotRead sampleLoopStart.w).configVersion + (sampleInitialEvents.length : Int)
          ≤ maxInt64
      ∧ (snapshotRead sampleLoopStart.w).configVersion
          ≤ (snapshotRead ((runLoop sampleLoopStart sampleInitialEvents).1).w).configVersion) := by
  refine ⟨⟨by decide, by decide, ?_⟩, ⟨by decide, by decide, ?_⟩⟩
  · exact (configVersion_spec sampleLoopStart []).2.2.1 0 (by decide) (by decide)
  · exact (configVersion_spec sampleLoopStart sampleInitialEvents).2.2.2 (by decide) (by decide)

/-! ## C3 — `relationsChanged` per-key behaviour -/

/-- C3: `relationsChanged` handles a payload by folding its per-key body
over the keys (first conjunct), and for a key that body behaves as
specified, stated here on the handler applied to the payload `[key]`:
(a) the lookup fails not-found-or-unauthorized and a sub-watcher is
registered for the key: the sub-watcher is stopped and both the registry
entry and the `Relations` snapshot entry at the sub-watcher's relation id
are removed, everything else framed;
(b) the lookup succeeds and the relation is already tracked: only the
`Life` field of its `RelationSnapshot` is updated (`Members` untouched),
every other entry, the registry, the sub-watcher logs and the rest of the
state unchanged;
(c) the lookup succeeds and the relation is new: a relation-units
sub-watcher is started and registered under the key, the handler consumes
its initial event, and the snapshot entry is inserted with `Members` seeded
from that event's `Changed` versions, everything else framed. -/
theorem relationsChangedKey_spec (env : RelEnv) (w : WatcherState) (key : String) :
    (∀ keys, relationsChanged env w (key :: keys)
        = match relationsChangedKey env w key with
          | .error e => .error e
          | .ok w1 => relationsChanged env w1 keys)
    ∧ (∀ rid, env.lookup key = .notFoundOrUnauthorized →
      assocLookup w.relations key = some rid →
      env.stopRes key = none →
      ∃ w', relationsChanged env w [key] = .ok w'
        ∧ w'.relations = assocErase w.relations key
        ∧ w'.current.relations = assocErase w.current.relations rid
        ∧ assocLookup w'.relations key = none
        ∧ assocLookup w'.current.relations rid = none
        ∧ w'.stoppedRelationWatchers = w.stoppedRelationWatchers ++ [key]
        ∧ snapshotFrameEq w'.current w.current
        ∧ storageSideEq w' w)
    ∧ (∀ rid life snap, env.lookup key = .found rid life →
      assocMem w.relations key = true →
      assocLookup w.current.relations rid = some snap →
      ∃ w', relationsChanged env w [key] = .ok w'
        ∧ assocLookup w'.current.relations rid = some { life := life, members := snap.members }
        ∧ (∀ rid', rid' ≠ rid →
            assocLookup w'.current.relations rid' = assocLookup w.current.relations rid')
        ∧ w'.relations = w.relations
        ∧ w'.stoppedRelationWatchers = w.stoppedRelationWatchers
        ∧ snapshotFrameEq w'.current w.current
        ∧ storageSideEq w' w)
    ∧ (∀ rid life changed, env.lookup key = .found rid life →
      assocMem w.relations key = false →
      env.watchInit key = .ok changed →
      ∃ w', relationsChanged env w [key] = .ok w'
        ∧ w'.relations = assocInsert w.relations key rid
        ∧ assocLookup w'.relations key = some rid
        ∧ assocLookup w'.current.relations rid
            = some { life := life
                     members := changed.foldl (fun m uv => assocInsert m uv.1 uv.2) [] }
        ∧ (∀ rid', rid' ≠ rid →
            assocLookup w'.current.relations rid' = assocLookup w.current.relations rid')
        ∧ w'.stoppedRelationWatchers = w.stoppedRelationWatchers
        ∧ snapshotFrameEq w'.current w.current
        ∧ storageSideEq w' w) := by
  refine ⟨fun keys => rfl, ?_, ?_, ?_⟩
  · intro rid h1 h2 h3
    refine
      ⟨{ w with
          relations := assocErase w.relations key
          stoppedRelationWatchers := w.stoppedRelationWatchers ++ [key]
          current := { w.current with
            relations := assocErase w.current.relations rid } },
        ?_, rfl, rfl, assocLookup_erase_self _ _, assocLookup_erase_self _ _, rfl,
        ⟨rfl, rfl, rfl, rfl, rfl, rfl, rfl, rfl⟩, ⟨rfl, rfl⟩⟩
    simp [relationsChanged, relationsChangedKey, h1, h2, h3]
  · intro rid life snap h1 h2 h3
    refine
      ⟨{ w with
          current := { w.current with
            relations := assocInsert w.current.relations rid { snap with life := life } } },
        ?_, assocLookup_insert_self _ _ _,
        fun rid' hne => assocLookup_insert_ne _ _ _ _ (fun hc => hne hc.symm),
        rfl, rfl, ⟨rfl, rfl, rfl, rfl, rfl, rfl, rfl, rfl⟩, ⟨rfl, rfl⟩⟩
    simp [relationsChanged, relationsChangedKey, h1, h2, h3]
  · intro rid life changed h1 h2 h3
    refine
      ⟨{ w with
          relations := assocInsert w.relations key rid
          current := { w.current with
            relations := assocInsert w.current.relations rid
              { life := life
                members := changed.foldl (fun m uv => assocInsert m uv.1 uv.2) [] } } },
        ?_, rfl, assocLookup_insert_self _ _ _, assocLookup_insert_self _ _ _,
        fun rid' hne => assocLookup_insert_ne _ _ _ _ (fun hc => hne hc.symm),
        rfl, ⟨rfl, rfl, rfl, rfl, rfl, rfl, rfl, rfl⟩, ⟨rfl, rfl⟩⟩
    simp [relationsChanged, relationsChangedKey, h1, h2, h3]

theorem relationsChangedKey_spec_witness :
    ((⟨fun _ => .notFoundOrUnauthorized, fun _ => .ok [], fun _ => none⟩ : RelEnv).lookup
        "db:rel" = .notFoundOrUnauthorized
      ∧ assocLookup sampleRelationState.relations "db:rel" = some 0
      ∧ ∃ w', relationsChanged ⟨fun _ => .notFoundOrUnauthorized, fun _ => .ok [], fun _ => none⟩
            sampleRelationState ["db:rel"] = .ok w'
        ∧ w'.relations = assocErase sampleRelationState.relations "db:rel"
        ∧ w'.current.relations = assocErase sampleRelationState.current.relations 0
        ∧ assocLookup w'.relations "db:rel" = none
        ∧ assocLookup w'.current.relations 0 = none
        ∧ w'.stoppedRelationWatchers = sampleRelationState.stoppedRelationWatchers ++ ["db:rel"]
        ∧ snapshotFrameEq w'.current sampleRelationState.current
        ∧ storageSideEq w' sampleRelationState)
    ∧ (∃ w', relationsChanged ⟨fun _ => .found 0 .dying, fun _ => .ok [], fun _ => none⟩
            sampleRelationState ["db:rel"] = .ok w'
        ∧ assocLookup w'.current.relations 0
            = some { life := .dying, members := [("u/0", 7)] }
        ∧ (∀ rid', rid' ≠ 0 →
            assocLookup w'.current.relations rid'
              = assocLookup sampleRelationState.current.relations rid')
        ∧ w'.relations = sampleRelationState.relations
        ∧ w'.stoppedRelationWatchers = sampleRelationState.stoppedRelationWatchers
        ∧ snapshotFrameEq w'.current sampleRelationState.current
        ∧ storageSideEq w' sampleRelationState)
    ∧ (∃ w', relationsChanged
            ⟨fun _ => .found 1 .alive, fun _ => .ok [("v/1", 3)], fun _ => none⟩
            sampleRelationState ["other:rel"] = .ok w'
        ∧ w'.relations = assocInsert sampleRelationState.relations "other:rel" 1
        ∧ assocLookup w'.relations "other:rel" = some 1
        ∧ assocLookup w'.current.relations 1
            = some { life := .alive
                     members := [("v/1", 3)].foldl (fun m uv => assocInsert m uv.1 uv.2) [] }
        ∧ (∀ rid', rid' ≠ 1 →
            assocLookup w'.current.relations rid'
              = assocLookup sampleRelationState.current.relations rid')
        ∧ w'.stoppedRelationWatchers = sampleRelationState.stoppedRelationWatchers
        ∧ snapshotFrameEq w'.current sampleRelationState.current
        ∧ storageSideEq w' sampleRelationState) := by
  refine ⟨⟨rfl, rfl, ?_⟩, ?_, ?_⟩
  · exact (relationsChangedKey_spec
      ⟨fun _ => .notFoundOrUnauthorized, fun _ => .ok [], fun _ => none⟩
      sampleRelationState "db:rel").2.1 0 rfl rfl rfl
  · exact (relationsChangedKey_spec
      ⟨fun _ => .found 0 .dying, fun _ => .ok [], fun _ => none⟩
      sampleRelationState "db:rel").2.2.1 0 Life.dying
      { life := .alive, members := [("u/0", 7)] } rfl rfl rfl
  · exact (relationsChangedKey_spec
      ⟨fun _ => .found 1 .alive, fun _ => .ok [("v/1", 3)], fun _ => none⟩
      sampleRelationState "other:rel").2.2.2 1 Life.alive [("v/1", 3)] rfl rfl rfl

/-! ## C6 — storage add-then-not-found round trip -/

/-- C6: processing a storage-changed event for a fresh key (attachment
alive), then a storage-changed event for the same key whose attachment-life
result is not-found, leaves the watcher as if the key had never been seen:
the `Storage` map and the attachment sub-watcher registry equal their
original values and carry no entry for the tag (the second event having
deregistered and stopped the sub-watcher the first one started). -/
theorem storageChanged_roundtrip (w : WatcherState) (key : String) (life : Life)
    (env1 env2 : StorageEnv)
    (hs : assocLookup w.current.storage key = none)
    (hw : assocLookup w.storageWatchers key = none)
    (h1b : env1.batchErr = none) (h1 : env1.lifeResult key = .okLife life)
    (h1s : env1.startRes key = none)
    (h2b : env2.batchErr = none) (h2 : env2.lifeResult key = .notFound)
    (h2s : env2.stopRes key = none) :
    ∃ w1 w2, storageChanged env1 w [key] = .ok w1
      ∧ storageChanged env2 w1 [key] = .ok w2
      ∧ w2.current.storage = w.current.storage
      ∧ w2.storageWatchers = w.storageWatchers
      ∧ assocLookup w2.current.storage key = none
      ∧ assocLookup w2.storageWatchers key = none := by
  have hmem1 : assocMem w.storageWatchers key = false := by
    simp [assocMem, hw]
  refine
    ⟨{ w with
        current := { w.current with
          storage := assocInsert w.current.storage key
            { tag := key, life := life, kind := 0, location := "", attached := false } }
        storageWatchers := assocInsert w.storageWatchers key () },
      { w with stoppedStorageWatchers := w.stoppedStorageWatchers ++ [key] },
      ?_, ?_, rfl, rfl, hs, hw⟩
  · simp [storageChanged, storageChanged.go, storageChangedKey,
      startStorageAttachmentWatcher, h1b, h1, h1s, hs, hmem1]
  · have hmem2 : assocMem (assocInsert w.storageWatchers key ()) key = true := by
      simp [assocMem, assocLookup_insert_self]
    have he1 : assocErase (assocInsert w.current.storage key
        { tag := key, life := life, kind := 0, location := "", attached := false }) key
        = w.current.storage := by
      rw [assocErase_insert, assocErase_of_lookup_none _ _ hs]
    have he2 : assocErase (assocInsert w.storageWatchers key ()) key
        = w.storageWatchers := by
      rw [assocErase_insert, assocErase_of_lookup_none _ _ hw]
    simp [storageChanged, storageChanged.go, storageChangedKey,
      stopStorageAttachmentWatcher, h2b, h2, h2s, hmem2, he1, he2]

theorem storageChanged_roundtrip_witness :
    (assocLookup initialWatcherState.current.storage "data/0" = none)
    ∧ ∃ w1 w2,
        storageChanged ⟨none, fun _ => .okLife .alive, fun _ => none, fun _ => none⟩
          initialWatcherState ["data/0"] = .ok w1
        ∧ storageChanged ⟨none, fun _ => .notFound, fun _ => none, fun _ => none⟩
            w1 ["data/0"] = .ok w2
        ∧ w2.current.storage = initialWatcherState.current.storage
        ∧ w2.storageWatchers = initialWatcherState.storageWatchers
        ∧ assocLookup w2.current.storage "data/0" = none
        ∧ assocLookup w2.storageWatchers "data/0" = none :=
  ⟨rfl, storageChanged_roundtrip initialWatcherState "data/0" Life.alive
    ⟨none, fun _ => .okLife .alive, fun _ => none, fun _ => none⟩
    ⟨none, fun _ => .notFound, fun _ => none, fun _ => none⟩
    rfl rfl rfl rfl rfl rfl rfl rfl⟩

/-! ## C5 — `Snapshot()` copy depth

`Snapshot()` copies the `Relations`/`Storage` maps one level deep: the
containers themselves are fresh, and the struct values are copied — but a
`RelationSnapshot`'s `Members` field is a Go map header, so the copy and
`w.current` share the same members container (`relationUnitsChanged` even
relies on that sharing when it merges deltas without writing the struct
back).  The claim that Members mutations through the returned Snapshot are
not observable internally is therefore false. -/

theorem readRelations_writeRelEntry_ne (h : SnapHeap) (a a' : Nat) (rid : Int)
    (r : RelationSnapshotRef) (hne : a ≠ a') :
    readRelations (writeRelEntry h a rid r) a' = readRelations h a' := by
  show (assocLookup (assocInsert h.relMapCells a
    (assocInsert (readRelations h a) rid r)) a').getD [] = _
  rw [assocLookup_insert_ne _ _ _ _ hne]
  rfl

theorem readRelations_eraseRelEntry_ne (h : SnapHeap) (a a' : Nat) (rid : Int)
    (hne : a ≠ a') :
    readRelations (eraseRelEntry h a rid) a' = readRelations h a' := by
  show (assocLookup (assocInsert h.relMapCells a
    (assocErase (readRelations h a) rid)) a').getD [] = _
  rw [assocLookup_insert_ne _ _ _ _ hne]
  rfl

theorem readStorageMap_writeStorageEntry_ne (h : SnapHeap) (a a' : Nat) (tag : String)
    (s : StorageSnapshot) (hne : a ≠ a') :
    readStorageMap (writeStorageEntry h a tag s) a' = readStorageMap h a' := by
  show (assocLookup (assocInsert h.storageMapCells a
    (assocInsert (readStorageMap h a) tag s)) a').getD [] = _
  rw [assocLookup_insert_ne _ _ _ _ hne]
  rfl

theorem readStorageMap_eraseStorageEntry_ne (h : SnapHeap) (a a' : Nat) (tag : String)
    (hne : a ≠ a') :
    readStorageMap (eraseStorageEntry h a tag) a' = readStorageMap h a' := by
  show (assocLookup (assocInsert h.storageMapCells a
    (assocErase (readStorageMap h a) tag)) a').getD [] = _
  rw [assocLookup_insert_ne _ _ _ _ hne]
  rfl

theorem readRelations_writeMemberEntry (h : SnapHeap) (a : Nat) (u : String) (v : Int)
    (a' : Nat) : readRelations (writeMemberEntry h a u v) a' = readRelations h a' := rfl

/-- C5 counterexample: on a watcher holding one relation (id 1, member
`u/0 ↦ 1`), take `Snapshot()`; the returned copy's entry for relation 1
carries the same `Members` container address (cell 1) as the internal state,
and writing `u/0 ↦ 99` through that address changes what the watcher itself
reads for that member from 1 to 99 — a mutation performed through the
returned Snapshot's `RelationSnapshot.Members` IS observable in the
watcher's internal state. -/
theorem snapshot_members_shared_counterexample :
    (assocLookup (readRelations (snapshotCopy sampleHeapWatcher).1.heap
        (snapshotCopy sampleHeapWatcher).2.1) 1).map (fun r => r.membersRef) = some 1
    ∧ readMember sampleHeapWatcher.heap sampleHeapWatcher.currentRelationsRef 1 "u/0" = some 1
    ∧ readMember (writeMemberEntry (snapshotCopy sampleHeapWatcher).1.heap 1 "u/0" 99)
        sampleHeapWatcher.currentRelationsRef 1 "u/0" = some 99 := by
  refine ⟨rfl, rfl, rfl⟩

/-- C5 (amended): `Snapshot()` allocates fresh top-level `Relations` and
`Storage` containers holding the same entries, so key-level insertions and
removals through either side (the returned copy or the watcher's internal
maps) are invisible to the other; but the copied `RelationSnapshot` entries
are identical struct values sharing their `Members` container, so a
member-level write through an entry of the returned copy is observed both by
the watcher's internal read and through the copy (and vice versa, the
entries being the same). -/
theorem snapshotCopy_spec (w : HeapWatcher)
    (hwfR : w.currentRelationsRef < w.heap.nextAddr)
    (hwfS : w.currentStorageRef < w.heap.nextAddr) :
    ((snapshotCopy w).2.1 ≠ w.currentRelationsRef
      ∧ (snapshotCopy w).2.2 ≠ w.currentStorageRef)
    ∧ (readRelations (snapshotCopy w).1.heap (snapshotCopy w).2.1
        = readRelations w.heap w.currentRelationsRef
      ∧ readStorageMap (snapshotCopy w).1.heap (snapshotCopy w).2.2
        = readStorageMap w.heap w.currentStorageRef)
    ∧ (readRelations (snapshotCopy w).1.heap w.currentRelationsRef
        = readRelations w.heap w.currentRelationsRef
      ∧ readStorageMap (snapshotCopy w).1.heap w.currentStorageRef
        = readStorageMap w.heap w.currentStorageRef)
    ∧ (∀ rid r,
        readRelations (writeRelEntry (snapshotCopy w).1.heap (snapshotCopy w).2.1 rid r)
          w.currentRelationsRef = readRelations w.heap w.currentRelationsRef
        ∧ readRelations (eraseRelEntry (snapshotCopy w).1.heap (snapshotCopy w).2.1 rid)
          w.currentRelationsRef = readRelations w.heap w.currentRelationsRef
        ∧ readRelations (writeRelEntry (snapshotCopy w).1.heap w.currentRelationsRef rid r)
          (snapshotCopy w).2.1 = readRelations w.heap w.currentRelationsRef
        ∧ readRelations (eraseRelEntry (snapshotCopy w).1.heap w.currentRelationsRef rid)
          (snapshotCopy w).2.1 = readRelations w.heap w.currentRelationsRef)
    ∧ (∀ tag s,
        readStorageMap (writeStorageEntry (snapshotCopy w).1.heap (snapshotCopy w).2.2 tag s)
          w.currentStorageRef = readStorageMap w.heap w.currentStorageRef
        ∧ readStorageMap (eraseStorageEntry (snapshotCopy w).1.heap (snapshotCopy w).2.2 tag)
          w.currentStorageRef = readStorageMap w.heap w.currentStorageRef
        ∧ readStorageMap (writeStorageEntry (snapshotCopy w).1.heap w.currentStorageRef tag s)
          (snapshotCopy w).2.2 = readStorageMap w.heap w.currentStorageRef
        ∧ readStorageMap (eraseStorageEntry (snapshotCopy w).1.heap w.currentStorageRef tag)
          (snapshotCopy w).2.2 = readStorageMap w.heap w.currentStorageRef)
    ∧ (∀ rid r u v,
        assocLookup (readRelations (snapshotCopy w).1.heap (snapshotCopy w).2.1) rid
          = some r →
        readMember (writeMemberEntry (snapshotCopy w).1.heap r.membersRef u v)
          w.currentRelationsRef rid u = some v
        ∧ readMember (writeMemberEntry (snapshotCopy w).1.heap r.membersRef u v)
          (snapshotCopy w).2.1 rid u = some v) := by
  have hneR : w.heap.nextAddr ≠ w.currentRelationsRef :=
    fun hc => absurd (hc ▸ hwfR) (lt_irrefl _)
  have hneR' : w.currentRelationsRef ≠ w.heap.nextAddr := fun hc => hneR hc.symm
  have hneS : w.heap.nextAddr + 1 ≠ w.currentStorageRef :=
    fun hc => absurd (hc ▸ Nat.lt_succ_of_lt hwfS) (lt_irrefl _)
  have hneS' : w.currentStorageRef ≠ w.heap.nextAddr + 1 := fun hc => hneS hc.symm
  have hcellsR : (snapshotCopy w).1.heap.relMapCells
      = assocInsert w.heap.relMapCells w.heap.nextAddr
          (readRelations w.heap w.currentRelationsRef) := rfl
  have hcellsS : (snapshotCopy w).1.heap.storageMapCells
      = assocInsert w.heap.storageMapCells (w.heap.nextAddr + 1)
          (readStorageMap w.heap w.currentStorageRef) := rfl
  have hcR : readRelations (snapshotCopy w).1.heap (snapshotCopy w).2.1
      = readRelations w.heap w.currentRelationsRef := by
    show (assocLookup (snapshotCopy w).1.heap.relMapCells (snapshotCopy w).2.1).getD [] = _
    rw [hcellsR]
    show (assocLookup (assocInsert w.heap.relMapCells w.heap.nextAddr
      (readRelations w.heap w.currentRelationsRef)) w.heap.nextAddr).getD [] = _
    rw [assocLookup_insert_self]
    rfl
  have hcS : readStorageMap (snapshotCopy w).1.heap (snapshotCopy w).2.2
      = readStorageMap w.heap w.currentStorageRef := by
    show (assocLookup (snapshotCopy w).1.heap.storageMapCells (snapshotCopy w).2.2).getD [] = _
    rw [hcellsS]
    show (assocLookup (assocInsert w.heap.storageMapCells (w.heap.nextAddr + 1)
      (readStorageMap w.heap w.currentStorageRef)) (w.heap.nextAddr + 1)).getD [] = _
    rw [assocLookup_insert_self]
    rfl
  have hwR : readRelations (snapshotCopy w).1.heap w.currentRelationsRef
      = readRelations w.heap w.currentRelationsRef := by
    show (assocLookup (snapshotCopy w).1.heap.relMapCells w.currentRelationsRef).getD [] = _
    rw [hcellsR, assocLookup_insert_ne _ _ _ _ hneR]
    rfl
  have hwS : readStorageMap (snapshotCopy w).1.heap w.currentStorageRef
      = readStorageMap w.heap w.currentStorageRef := by
    show (assocLookup (snapshotCopy w).1.heap.storageMapCells w.currentStorageRef).getD [] = _
    rw [hcellsS, assocLookup_insert_ne _ _ _ _ hneS]
    rfl
  refine ⟨⟨hneR, hneS⟩, ⟨hcR, hcS⟩, ⟨hwR, hwS⟩, ?_, ?_, ?_⟩
  · intro rid r
    exact ⟨(readRelations_writeRelEntry_ne _ _ _ _ _ hneR).trans hwR,
      (readRelations_eraseRelEntry_ne _ _ _ _ hneR).trans hwR,
      (readRelations_writeRelEntry_ne _ _ _ _ _ hneR').trans hcR,
      (readRelations_eraseRelEntry_ne _ _ _ _ hneR').trans hcR⟩
  · intro tag s
    exact ⟨(readStorageMap_writeStorageEntry_ne _ _ _ _ _ hneS).trans hwS,
      (readStorageMap_eraseStorageEntry_ne _ _ _ _ hneS).trans hwS,
      (readStorageMap_writeStorageEntry_ne _ _ _ _ _ hneS').trans hcS,
      (readStorageMap_eraseStorageEntry_ne _ _ _ _ hneS').trans hcS⟩
  · intro rid r u v hr
    rw [hcR] at hr
    have hrelW : readRelations (writeMemberEntry (snapshotCopy w).1.heap r.membersRef u v)
        w.currentRelationsRef = readRelations w.heap w.currentRelationsRef :=
      (readRelations_writeMemberEntry _ _ _ _ _).trans hwR
    have hrelC : readRelations (writeMemberEntry (snapshotCopy w).1.heap r.membersRef u v)
        (snapshotCopy w).2.1 = readRelations w.heap w.currentRelationsRef :=
      (readRelations_writeMemberEntry _ _ _ _ _).trans hcR
    have hmem : (writeMemberEntry (snapshotCopy w).1.heap r.membersRef u v).memberCells
        = assocInsert w.heap.memberCells r.membersRef
            (assocInsert ((assocLookup w.heap.memberCells r.membersRef).getD []) u v) := rfl
    constructor
    · rw [readMember, hrelW, hr, hmem]
      simp [assocLookup_insert_self]
    · rw [readMember, hrelC, hr, hmem]
      simp [assocLookup_insert_self]

theorem snapshotCopy_spec_witness :
    sampleHeapWatcher.currentRelationsRef < sampleHeapWatcher.heap.nextAddr
    ∧ sampleHeapWatcher.currentStorageRef < sampleHeapWatcher.heap.nextAddr
    ∧ (snapshotCopy sampleHeapWatcher).2.1 ≠ sampleHeapWatcher.currentRelationsRef
    ∧ (snapshotCopy sampleHeapWatcher).2.2 ≠ sampleHeapWatcher.currentStorageRef
    ∧ readStorageMap (eraseStorageEntry (snapshotCopy sampleHeapWatcher).1.heap
        (snapshotCopy sampleHeapWatcher).2.2 "data/0") sampleHeapWatcher.currentStorageRef
      = readStorageMap sampleHeapWatcher.heap sampleHeapWatcher.currentStorageRef
    ∧ (assocLookup (readRelations (snapshotCopy sampleHeapWatcher).1.heap
          (snapshotCopy sampleHeapWatcher).2.1) 1 = some { life := .alive, membersRef := 1 }
      → readMember (writeMemberEntry (snapshotCopy sampleHeapWatcher).1.heap 1 "u/0" 99)
          sampleHeapWatcher.currentRelationsRef 1 "u/0" = some 99) := by
  refine ⟨by decide, by decide,
    (snapshotCopy_spec sampleHeapWatcher (by decide) (by decide)).1.1,
    (snapshotCopy_spec sampleHeapWatcher (by decide) (by decide)).1.2, ?_, ?_⟩
  · exact ((snapshotCopy_spec sampleHeapWatcher (by decide) (by decide)).2.2.2.2.1
      "data/0" default).2.1
  · intro hr
    exact ((snapshotCopy_spec sampleHeapWatcher (by decide) (by decide)).2.2.2.2.2
      1 { life := .alive, membersRef := 1 } "u/0" 99 hr).1

/-! ## C7 — terminal-agent translation in `init` -/

/-- C7: a not-found/unauthorized failure of the initial unit lookup or of the
service lookup is translated by `init` into `worker.ErrTerminateAgent`;
`NewWatcher` then returns that error with no watcher and the loop goroutine
is never started, so no signal is ever emitted on the output channel; any
other lookup error is returned untranslated. -/
theorem init_terminateAgent (e : GoErr) (sl : Except GoErr Unit)
    (cl : ClaimLeaderWait) (evs : List LoopEvent) :
    (isNotFoundOrUnauthorized e = true →
      newWatcherRun (.error e) sl cl evs = (.error .terminateAgent, [])
      ∧ newWatcherRun (.ok ()) (.error e) cl evs = (.error .terminateAgent, []))
    ∧ (isNotFoundOrUnauthorized e = false →
      newWatcherRun (.error e) sl cl evs = (.error e, [])
      ∧ newWatcherRun (.ok ()) (.error e) cl evs = (.error e, [])) := by
  constructor
  · intro h
    constructor
    · simp [newWatcherRun, initW, initTranslate, h]
    · simp [newWatcherRun, initW, initTranslate, h]
  · intro h
    constructor
    · simp [newWatcherRun, initW, initTranslate, h]
    · simp [newWatcherRun, initW, initTranslate, h]

theorem init_terminateAgent_witness :
    (isNotFoundOrUnauthorized GoErr.codeNotFound = true
      ∧ newWatcherRun (.error GoErr.codeNotFound) (.ok ()) (ClaimLeaderWait.readyFirst false) []
          = (.error .terminateAgent, []))
    ∧ (isNotFoundOrUnauthorized (GoErr.otherErr "boom") = false
      ∧ newWatcherRun (.error (GoErr.otherErr "boom")) (.ok ()) (ClaimLeaderWait.readyFirst false) []
          = (.error (GoErr.otherErr "boom"), [])) :=
  ⟨⟨rfl, ((init_terminateAgent GoErr.codeNotFound (.ok ()) (ClaimLeaderWait.readyFirst false) []).1 rfl).1⟩,
   ⟨rfl, ((init_terminateAgent (GoErr.otherErr "boom") (.ok ()) (ClaimLeaderWait.readyFirst false) []).2 rfl).1⟩⟩

end RemoteState

namespace MgoTxn

/-! ## C4 — the txn-queue length bound -/

theorem filter_not_self_append (q : List String) (x : String) (h : x ∉ q) :
    (q ++ [x]).filter (fun tok => !([x].contains tok)) = q := by
  rw [List.filter_append]
  have h1 : List.filter (fun tok => !([x].contains tok)) q = q := by
    apply List.filter_eq_self.mpr
    intro b hb
    have hbx : ¬b = x := fun hc => h (hc ▸ hb)
    simp [List.contains_cons, hbx]
  have h2 : List.filter (fun tok => !([x].contains tok)) [x] = [] := by
    simp [List.filter, List.contains_cons]
  rw [h1, h2, List.append_nil]

/-- C4: with `MaxTxnQueueLength = L > 0`, a transaction targeting a document
whose `txn-queue` is longer than `L` is aborted through `abortOrReload`
(whose widened precondition accepts both `tprepared` and `tpreparing`), the
caller gets the error `txn-queue for <id> in "<collection>" has too many
transactions (N)` naming the document id and collection, and the document's
queue is unchanged afterwards; with `L = 0` the bound is disabled and the
queue grows by the pushed token instead of erroring. -/
theorem flusherQueueStep_bound (opts : RunnerOptions) (t : Txn) (doc : TxnDoc) :
    (0 < opts.MaxTxnQueueLength →
     opts.MaxTxnQueueLength < (doc.queue.length : Int) →
     t.tid ∉ doc.queue →
     (t.state = TxnState.tprepared ∨ t.state = TxnState.tpreparing) →
     flusherQueueStep opts t doc
       = (.error (tooManyTransactionsMsg doc.docId doc.docC (doc.queue.length + 1)), doc))
    ∧ (opts.MaxTxnQueueLength = 0 →
       flusherQueueStep opts t doc = (.ok (), preparePushToken doc t)
       ∧ (t.tid ∉ doc.queue →
          (preparePushToken doc t).queue.length = doc.queue.length + 1))
    ∧ ((t.state = TxnState.tprepared ∨ t.state = TxnState.tpreparing) →
       (abortOrReload t doc [t.tid]).1.state = TxnState.taborting) := by
  refine ⟨?_, ?_, ?_⟩
  · intro hL hlen hmem hstate
    obtain ⟨did, dc, q⟩ := doc
    simp only at hlen hmem
    have hpush : preparePushToken ⟨did, dc, q⟩ t = ⟨did, dc, q ++ [t.tid]⟩ := by
      simp [preparePushToken, hmem]
    have hcond : opts.MaxTxnQueueLength > 0
        ∧ (((q ++ [t.tid]).length : Int) > opts.MaxTxnQueueLength) := by
      constructor
      · exact hL
      · rw [List.length_append]
        push_cast
        omega
    have habort : abortOrReload t ⟨did, dc, q ++ [t.tid]⟩ [t.tid]
        = ({ t with state := TxnState.taborting }, ⟨did, dc, q⟩) := by
      rw [abortOrReload, if_pos hstate]
      rw [filter_not_self_append q t.tid hmem]
    rw [flusherQueueStep, hpush, if_pos hcond, habort]
    simp
  · intro h0
    constructor
    · have hcond : ¬(opts.MaxTxnQueueLength > 0
          ∧ (((preparePushToken doc t).queue.length : Int) > opts.MaxTxnQueueLength)) := by
        rw [h0]
        intro hc
        exact absurd hc.1 (by omega)
      rw [flusherQueueStep, if_neg hcond]
    · intro hmem
      obtain ⟨did, dc, q⟩ := doc
      simp only at hmem
      simp [preparePushToken, hmem]
  · intro hstate
    rw [abortOrReload, if_pos hstate]

theorem flusherQueueStep_bound_witness :
    ((0 : Int) < 2
      ∧ (2 : Int) < (["a", "b", "c"].length : Int)
      ∧ "t1" ∉ ["a", "b", "c"]
      ∧ flusherQueueStep ⟨2, 10⟩ ⟨"t1", TxnState.tpreparing⟩ ⟨"0", "accounts", ["a", "b", "c"]⟩
          = (.error "txn-queue for 0 in \"accounts\" has too many transactions (4)",
             ⟨"0", "accounts", ["a", "b", "c"]⟩))
    ∧ flusherQueueStep ⟨0, 10⟩ ⟨"t1", TxnState.tpreparing⟩ ⟨"0", "accounts", ["a", "b", "c"]⟩
        = (.ok (), ⟨"0", "accounts", ["a", "b", "c", "t1"]⟩)
    ∧ (abortOrReload ⟨"t1", TxnState.tprepared⟩ ⟨"0", "accounts", ["a", "b", "c"]⟩ ["t1"]).1.state
        = TxnState.taborting := by
  refine ⟨⟨by decide, by decide, by decide, ?_⟩, ?_, ?_⟩
  · have h := (flusherQueueStep_bound ⟨2, 10⟩ ⟨"t1", TxnState.tpreparing⟩
      ⟨"0", "accounts", ["a", "b", "c"]⟩).1 (by decide) (by decide) (by decide) (Or.inr rfl)
    simpa [tooManyTransactionsMsg] using h
  · have h := ((flusherQueueStep_bound ⟨0, 10⟩ ⟨"t1", TxnState.tpreparing⟩
      ⟨"0", "accounts", ["a", "b", "c"]⟩).2.1 rfl).1
    simpa [preparePushToken] using h
  · exact (flusherQueueStep_bound ⟨2, 10⟩ ⟨"t1", TxnState.tprepared⟩
      ⟨"0", "accounts", ["a", "b", "c"]⟩).2.2 (Or.inl rfl)

end MgoTxn
